import Mathlib

set_option linter.unusedVariables false

/-!
Verification development for the DispatchIQ backend (FastAPI + Supabase).

The Python services are shallowly embedded: every Supabase table becomes a
list of rows in an explicit `DB` state, every service function becomes a pure
Lean function threading that state, and HTTP exceptions become `Except` errors
carrying the status code.  Outcomes of calls to the external credential store
(Supabase auth) are supplied by explicit environment records, and the sequence
of external calls a workflow performs is returned as a trace list.

Sources embedded:
  app/services/auth_service.py
  app/services/onboarding_service.py
  app/services/work_order_service.py
  app/api/v1/routes_properties.py
  app/api/v1/routes_technicians.py
  app/api/v1/routes_auth.py
  app/models/auth.py, app/models/onboarding.py, app/models/work_orders.py
-/

/-! ## Python string primitives -/

/-- Characters stripped by the Python `str.strip` method (ASCII whitespace). -/
def pyWhitespace (c : Char) : Bool :=
  c = ' ' || c = '\t' || c = '\n' || c = '\r' || c = '\x0b' || c = '\x0c'

/-- Python `str.strip()` on the character list. -/
def pyStripL (cs : List Char) : List Char :=
  ((cs.dropWhile pyWhitespace).reverse.dropWhile pyWhitespace).reverse

/-- Python `str.strip()`. -/
def pyStrip (s : String) : String :=
  ⟨pyStripL s.data⟩

/-- Python `str.lower()` (restricted to ASCII letters, which covers every
string compared against in the embedded code). -/
def pyLower (s : String) : String :=
  ⟨s.data.map Char.toLower⟩

/-- Python truthiness of an optional string: `None` and the empty string are
falsy, everything else is truthy. -/
def strTruthy : Option String → Bool
  | none => false
  | some s => s ≠ ""

/-! ## Regex helpers

Python `re.match` with a pattern anchored by `^ ... $` (not MULTILINE): the
consumed body may not contain a newline, and `$` matches either at the end of
the string or just before a single newline that ends the string.
`pyDollarBody` returns the character list the body must match, or `none` when
an interior newline makes any match impossible. -/

def pyDollarBody (cs : List Char) : Option (List Char) :=
  if cs.contains '\n' then
    if cs.getLast? = some '\n' && !(cs.dropLast.contains '\n') then
      some cs.dropLast
    else
      none
  else
    some cs

/-- ASCII decimal digit (the `\d` and `{2}`-digit atoms of the embedded
patterns). -/
def isDigitCh (c : Char) : Bool := '0' ≤ c && c ≤ '9'

/-- ASCII hexadecimal digit (`[0-9a-fA-F]`). -/
def isHexCh (c : Char) : Bool :=
  isDigitCh c || ('a' ≤ c && c ≤ 'f') || ('A' ≤ c && c ≤ 'F')

/-! ## Password policy — auth_service.py lines 15-18

`PASSWORD_REGEX = ^(?=.*[a-z])(?=.*[A-Z])(?=.*\d)(?=.*[@$!%*?&]).{8,64}$`
checked with `re.match`.  A lookahead `(?=.*[X])` succeeds iff a matching
character occurs before the first newline of the string. -/

def PW_SYMBOLS : List Char := ['@', '$', '!', '%', '*', '?', '&']

/-- `(?=.*[p])` at position 0: some character before the first newline
satisfies `p`. -/
def lookaheadHas (cs : List Char) (p : Char → Bool) : Bool :=
  (cs.takeWhile (fun c => c ≠ '\n')).any p

def passwordRegexMatch (s : String) : Bool :=
  let cs := s.data
  match pyDollarBody cs with
  | none => false
  | some body =>
    decide (8 ≤ body.length ∧ body.length ≤ 64)
      && lookaheadHas cs (fun c => 'a' ≤ c && c ≤ 'z')
      && lookaheadHas cs (fun c => 'A' ≤ c && c ≤ 'Z')
      && lookaheadHas cs isDigitCh
      && lookaheadHas cs (fun c => PW_SYMBOLS.contains c)

/-- auth_service.validate_password_strength. -/
def validate_password_strength (password : String) : Bool :=
  passwordRegexMatch password

/-! ## strptime / strftime for the formats used by onboarding_service

`datetime.strptime` compiles `%H` to `(2[0-3]|[0-1]\d|\d)`, `%M` to
`([0-5]\d|\d)` and `%S` to `(6[0-1]|[0-5]\d|\d)`; the regex alternation takes
two digits exactly when their value is in range, else one digit.  A `%S`
value of 60 or 61 is then rejected by the datetime constructor.  Any
unconverted trailing characters make the parse fail. -/

def digitVal (c : Char) : Nat := c.toNat - 48

/-- Parse one or two digits whose two-digit value is at most `maxTwo`. -/
def parseNum2 (maxTwo : Nat) : List Char → Option (Nat × List Char)
  | c1 :: c2 :: rest =>
    if isDigitCh c1 && isDigitCh c2 && decide (10 * digitVal c1 + digitVal c2 ≤ maxTwo) then
      some (10 * digitVal c1 + digitVal c2, rest)
    else if isDigitCh c1 then
      some (digitVal c1, c2 :: rest)
    else
      none
  | [c1] => if isDigitCh c1 then some (digitVal c1, []) else none
  | [] => none

/-- `datetime.strptime(value, "%H:%M")`, as hour and minute. -/
def strptimeHM (s : String) : Option (Nat × Nat) :=
  match parseNum2 23 s.data with
  | some (h, ':' :: rest) =>
    match parseNum2 59 rest with
    | some (m, []) => some (h, m)
    | _ => none
  | _ => none

/-- `datetime.strptime(value, "%H:%M:%S")`, as hour, minute and second. -/
def strptimeHMS (s : String) : Option (Nat × Nat × Nat) :=
  match parseNum2 23 s.data with
  | some (h, ':' :: rest) =>
    match parseNum2 59 rest with
    | some (m, ':' :: rest2) =>
      match parseNum2 61 rest2 with
      | some (sec, []) => if sec ≤ 59 then some (h, m, sec) else none
      | _ => none
    | _ => none
  | _ => none

/-- Two-digit zero-padded rendering used by `strftime` fields. -/
def fmt2 (n : Nat) : String :=
  (if n < 10 then "0" else "") ++ toString n

/-! ## HTTP errors -/

/-- An HTTPException: status code and detail message. -/
structure HErr where
  code : Nat
  detail : String
deriving DecidableEq, Repr

/-- onboarding_service._normalize_time: parse with `%H:%M` then `%H:%M:%S`,
render back as `%H:%M:%S`; otherwise raise 422. -/
def _normalize_time (value : String) : Except HErr String :=
  match strptimeHM value with
  | some (h, m) => .ok (fmt2 h ++ ":" ++ fmt2 m ++ ":" ++ "00")
  | none =>
    match strptimeHMS value with
    | some (h, m, s) => .ok (fmt2 h ++ ":" ++ fmt2 m ++ ":" ++ fmt2 s)
    | none => .error ⟨422, "Invalid time value. Expected HH:MM 24-hour format."⟩

/-- onboarding_service._format_time_for_response: falsy values render as
00:00; parse with `%H:%M:%S` then `%H:%M` and render `%H:%M`, else return the
raw value. -/
def _format_time_for_response (value : Option String) : String :=
  match value with
  | none => "00:00"
  | some v =>
    if v = "" then "00:00"
    else
      match strptimeHMS v with
      | some (h, m, _) => fmt2 h ++ ":" ++ fmt2 m
      | none =>
        match strptimeHM v with
        | some (h, m) => fmt2 h ++ ":" ++ fmt2 m
        | none => v

/-! ## Timezone normalization — onboarding_service.py lines 24-30 and 72-83 -/

def TIMEZONE_ALIASES : List (String × String) :=
  [("Eastern (Detroit)", "America/Detroit"),
   ("Central (Chicago)", "America/Chicago"),
   ("Mountain (Denver)", "America/Denver"),
   ("Pacific (LA)", "America/Los_Angeles")]

def REVERSE_TIMEZONE_ALIASES : List (String × String) :=
  TIMEZONE_ALIASES.map (fun p => (p.2, p.1))

/-- Dictionary lookup on an association list. -/
def dictGet (d : List (String × String)) (k : String) : Option String :=
  (d.find? (fun p => p.1 = k)).map (fun p => p.2)

/-- onboarding_service._normalize_timezone. -/
def _normalize_timezone (value : Option String) (fallback : String) : Except HErr String :=
  if strTruthy value then
    let candidate := pyStrip (value.getD "")
    match dictGet TIMEZONE_ALIASES candidate with
    | some tz => .ok tz
    | none =>
      if (dictGet REVERSE_TIMEZONE_ALIASES candidate).isSome then .ok candidate
      else .error ⟨422, "Unsupported timezone."⟩
  else
    .ok fallback

/-! ## UUID handling -/

/-- onboarding_service.UUID_RE body: 8-4-4-4-12 hexadecimal groups. -/
def uuidBodyMatch (b : List Char) : Bool :=
  b.length = 36 &&
    b.enum.all (fun p =>
      if p.1 = 8 ∨ p.1 = 13 ∨ p.1 = 18 ∨ p.1 = 23 then p.2 = '-' else isHexCh p.2)

/-- `UUID_RE.match(candidate)` with the `^...$` conventions of `re.match`. -/
def uuidReMatch (s : String) : Bool :=
  match pyDollarBody s.data with
  | none => false
  | some body => uuidBodyMatch body

def PLACEHOLDER_VALUES : List String :=
  ["string", "null", "none", "undefined", "", "all"]

/-- onboarding_service._clean_optional_uuid. -/
def _clean_optional_uuid (value : Option String) : Except HErr (Option String) :=
  match value with
  | none => .ok none
  | some v =>
    let candidate := pyStrip v
    if pyLower candidate ∈ PLACEHOLDER_VALUES then .ok none
    else if ¬ uuidReMatch candidate then .error ⟨422, "Invalid UUID value."⟩
    else .ok (some candidate)

/-- `str(uuid.UUID(value))`: drop `urn:` and `uuid:` substrings, strip curly
braces at both ends, drop dashes; the remaining 32 characters must be
hexadecimal; render lowercase in 8-4-4-4-12 form. -/
def pyUuidCanon (value : String) : Option String :=
  let s1 := (value.replace "urn:" "").replace "uuid:" ""
  let isBrace : Char → Bool := fun c => c = '\x7b' || c = '\x7d'
  let s2 := ((s1.data.dropWhile isBrace).reverse.dropWhile isBrace).reverse
  let hex := s2.filter (fun c => c ≠ '-')
  if hex.length = 32 && hex.all isHexCh then
    let lo := hex.map Char.toLower
    some ⟨lo.take 8 ++ ['-'] ++ (lo.drop 8).take 4 ++ ['-'] ++ (lo.drop 12).take 4
          ++ ['-'] ++ (lo.drop 16).take 4 ++ ['-'] ++ lo.drop 20⟩
  else
    none

/-- work_order_service._normalize_uuid. -/
def _normalize_uuid (value : String) (_field : String) : Except HErr String :=
  match pyUuidCanon value with
  | some u => .ok u
  | none => .error ⟨422, "Invalid UUID."⟩

/-- Decidable equality for `Except`, used to settle concrete runs of the
embedded fallible functions by `decide`. -/
instance {α β : Type} [DecidableEq α] [DecidableEq β] : DecidableEq (Except α β) := by
  intro a b
  cases a <;> cases b
  case error.error x y =>
    exact decidable_of_iff (x = y) ⟨fun h => by rw [h], fun h => by injection h⟩
  case ok.ok x y =>
    exact decidable_of_iff (x = y) ⟨fun h => by rw [h], fun h => by injection h⟩
  all_goals exact isFalse (fun h => by injection h)

example : _normalize_time "09:00" = .ok "09:00:00" := by decide
example : _normalize_time "09:00:00" = .ok "09:00:00" := by decide
example : _format_time_for_response (some "09:00:00") = "09:00" := by decide
example : validate_password_strength "Abcdef1!" = true := by decide
example : validate_password_strength "NoSymbol123" = false := by decide
example : uuidReMatch "123e4567-e89b-12d3-a456-426614174000" = true := by decide

/-! ## Data model — rows of the Relational Store tables used by the services -/

/-- A row of the companies table, with the scalar settings written by
first-time onboarding. -/
structure CompanyRow where
  id : String
  name : String
  timezone : Option String := none
  work_hours_start : Option String := none
  work_hours_end : Option String := none
  auto_assign : Bool := true
  intake : String := "manual"
  collect_pte : Bool := true
  collect_window : Bool := true
  on_call_enabled : Bool := false
  on_call_rotation : String := "weekly"
deriving DecidableEq, Repr

/-- A row of app_users, linking an identity to a company. -/
structure AppUserRow where
  user_id : String
  company_id : Option String := none
  first_name : Option String := none
  last_name : Option String := none
  is_active : Bool := true
deriving DecidableEq, Repr

structure PropertyRow where
  id : String
  company_id : String
  name : String
  address : Option String := none
  notes : Option String := none
deriving DecidableEq, Repr

structure UnitRow where
  id : String
  company_id : String
  property_id : String
  label : String
  notes : Option String := none
  is_active : Bool := true
deriving DecidableEq, Repr

structure TechnicianRow where
  id : String
  company_id : String
  user_id : Option String := none
  first_name : String
  last_name : String
  phone : Option String := none
  email : Option String := none
  default_property_id : Option String := none
  shift : Option String := none
  merit_percent : Nat := 100
  availability : String := "available"
deriving DecidableEq, Repr

structure WorkOrderRow where
  id : String
  company_id : String
  property_id : String
  unit_id : Option String := none
  unit : Option String := none
  issue : String
  priority : String
  wo_status : String := "open"
  pte : Option Bool := none
  preferred_window : Option String := none
  tenant_name : Option String := none
  tenant_phone : Option String := none
  assigned_technician_id : Option String := none
  created_at : Nat := 0
deriving DecidableEq, Repr

structure VendorRow where
  id : String
  company_id : String
  category : String
  name : String
  phone : Option String := none
deriving DecidableEq, Repr

/-- An auth identity as returned by the credential store admin API. -/
structure IdentityUser where
  id : String
  email : String
  email_confirmed_at : Option Nat := none
deriving DecidableEq, Repr

/-- The whole external state: credential store identities plus the relational
tables touched by the embedded services. -/
structure DB where
  identities : List IdentityUser := []
  companies : List CompanyRow := []
  app_users : List AppUserRow := []
  properties : List PropertyRow := []
  property_units : List UnitRow := []
  technicians : List TechnicianRow := []
  work_orders : List WorkOrderRow := []
  emergency_vendors : List VendorRow := []
deriving DecidableEq, Repr

/-! ## Shared table lookups

`table("app_users").select(...).eq("user_id", uid).limit(1)` and friends:
filter then take the first row. -/

/-- `_get_app_user` (identical in work_order_service.py and
onboarding_service.py): first app_users row whose user_id matches. -/
def _get_app_user (db : DB) (user_id : String) : Option AppUserRow :=
  (db.app_users.filter (fun r => r.user_id = user_id)).head?

/-- onboarding_service._get_company / work_order_service._get_company. -/
def _get_company (db : DB) (company_id : String) : Option CompanyRow :=
  (db.companies.filter (fun r => r.id = company_id)).head?

/-- onboarding_service._property_belongs_to_company. -/
def _property_belongs_to_company (db : DB) (property_id company_id : String) : Bool :=
  (db.properties.filter (fun r => r.id = property_id ∧ r.company_id = company_id)) ≠ []

/-- auth_service / onboarding_service existence probe over properties,
technicians and emergency_vendors (one `limit(1)` query per table). -/
def _company_has_existing_records (db : DB) (company_id : String) : Bool :=
  (db.properties.filter (fun r => r.company_id = company_id)) ≠ [] ||
  (db.technicians.filter (fun r => r.company_id = company_id)) ≠ [] ||
  (db.emergency_vendors.filter (fun r => r.company_id = company_id)) ≠ []

/-! ## Account provisioning (signup) — auth_service.py lines 20-136

External calls are recorded in a trace; their outcomes come from a
`SignupEnv`.  The cleanup handler swallows failures of the two delete calls,
exactly as the nested try/except blocks do. -/

/-- External calls the signup workflow can perform, in order. -/
inductive ExtCall where
  | createUser
  | insertCompany
  | updateAppUsers
  | insertAppUsers
  | sendOtp
  | resendOtp
  | deleteUser (uid : String)
  | deleteCompany (cid : String)
deriving DecidableEq, Repr

/-- Outcomes of the external calls made during signup.  `Except String`
results model Python exceptions carrying a message. -/
structure SignupEnv where
  /-- `auth.admin.create_user`: the created identity, or an exception. -/
  createUser : Except String IdentityUser
  /-- companies insert: id of the created row, or an exception / empty data. -/
  insertCompany : Except String String
  /-- app_users fallback insert (used when the update matched no row). -/
  insertAppUsers : Except String Unit
  /-- OTP send over HTTP: `some true` = 2xx, `some false` = error status,
  `none` = the request raised. -/
  otpSend : Option Bool := some true
  /-- fallback `auth.resend` (outcome irrelevant, swallowed). -/
  otpResend : Except String Unit := .ok ()
  /-- `auth.admin.delete_user` during cleanup. -/
  deleteUser : Except String Unit := .ok ()
  /-- companies delete during cleanup. -/
  deleteCompany : Except String Unit := .ok ()

/-- The dict returned by auth_service.signup_user on success. -/
structure SignupResult where
  id : String
  email : String
  confirmed : Bool
  message : String
  company_id : String
deriving DecidableEq, Repr

/-- Signup failure: a ValueError from the password gate, or the wrapped
exception raised at the end of the except block. -/
inductive SignupErr where
  | valueError (msg : String)
  | exc (msg : String)
deriving DecidableEq, Repr

/-- The compensating-cleanup handler (auth_service.py lines 125-136): delete
the identity if one was created, then the company row if one was created,
swallowing failures of either delete, then re-raise the wrapped error. -/
def signup_cleanup (env : SignupEnv) (db : DB) (uid : Option String)
    (cid : Option String) (msg : String) :
    Except SignupErr SignupResult × DB × List ExtCall :=
  let (db1, tr1) :=
    match uid with
    | none => (db, [])
    | some u =>
      match env.deleteUser with
      | .ok _ => ({ db with identities := db.identities.filter (fun i => i.id ≠ u) },
                  [ExtCall.deleteUser u])
      | .error _ => (db, [ExtCall.deleteUser u])
  let (db2, tr2) :=
    match cid with
    | none => (db1, [])
    | some c =>
      match env.deleteCompany with
      | .ok _ => ({ db1 with companies := db1.companies.filter (fun r => r.id ≠ c) },
                  [ExtCall.deleteCompany c])
      | .error _ => (db1, [ExtCall.deleteCompany c])
  (.error (.exc ("Supabase signup failed: " ++ msg)), db2, tr1 ++ tr2)

/-- The best-effort OTP send of signup step 5 (auth_service.py lines 76-115):
every failure is swallowed; only the trace differs. -/
def signup_send_otp (env : SignupEnv) : List ExtCall :=
  match env.otpSend with
  | some true => [ExtCall.sendOtp]
  | some false => [ExtCall.sendOtp, ExtCall.resendOtp]
  | none => [ExtCall.sendOtp]

/-- auth_service.signup_user. -/
def signup_user (env : SignupEnv) (db : DB)
    (email password first_name last_name company_name : String) :
    Except SignupErr SignupResult × DB × List ExtCall :=
  if ¬ validate_password_strength password then
    (.error (.valueError
      "Password must be 8-64 characters long and include uppercase, lowercase, digit, and special character."),
     db, [])
  else
    match env.createUser with
    | .error e =>
      let (r, db1, tr) := signup_cleanup env db none none e
      (r, db1, ExtCall.createUser :: tr)
    | .ok user =>
      let uid := user.id
      let db1 := { db with identities := db.identities ++ [user] }
      match env.insertCompany with
      | .error e =>
        let (r, db2, tr) := signup_cleanup env db1 (some uid) none e
        (r, db2, ExtCall.createUser :: ExtCall.insertCompany :: tr)
      | .ok cid =>
        let db2 := { db1 with companies := db1.companies ++ [{ id := cid, name := company_name }] }
        let matched := db2.app_users.filter (fun r => r.user_id = uid)
        let applyProfile : AppUserRow → AppUserRow := fun r =>
          { r with company_id := some cid, first_name := some first_name,
                   last_name := some last_name, is_active := true }
        if matched = [] then
          match env.insertAppUsers with
          | .error e =>
            let (r, db3, tr) := signup_cleanup env db2 (some uid) (some cid) e
            (r, db3,
             ExtCall.createUser :: ExtCall.insertCompany :: ExtCall.updateAppUsers ::
               ExtCall.insertAppUsers :: tr)
          | .ok _ =>
            let newRow : AppUserRow :=
              { user_id := uid, company_id := some cid, first_name := some first_name,
                last_name := some last_name, is_active := true }
            let db3 := { db2 with app_users := db2.app_users ++ [newRow] }
            (.ok { id := user.id, email := user.email,
                   confirmed := user.email_confirmed_at ≠ none,
                   message := "Signup successful. We sent a 6-digit code to your email to verify your account.",
                   company_id := cid },
             db3,
             ExtCall.createUser :: ExtCall.insertCompany :: ExtCall.updateAppUsers ::
               ExtCall.insertAppUsers :: signup_send_otp env)
        else
          let updated := db2.app_users.map (fun r => if r.user_id = uid then applyProfile r else r)
          let db3 := { db2 with app_users := updated }
          (.ok { id := user.id, email := user.email,
                 confirmed := user.email_confirmed_at ≠ none,
                 message := "Signup successful. We sent a 6-digit code to your email to verify your account.",
                 company_id := cid },
           db3,
           ExtCall.createUser :: ExtCall.insertCompany :: ExtCall.updateAppUsers ::
             signup_send_otp env)

/-! ## Onboarding request model — app/models/onboarding.py

`HourString = constr(pattern=r"^\d{2}:\d{2}$")` plus the
`validate_work_hours` field validator (`strptime(value, "%H:%M")`). -/

/-- The pydantic `HourString` pattern check. -/
def hourStringPattern (s : String) : Bool :=
  match pyDollarBody s.data with
  | none => false
  | some body =>
    match body with
    | [a, b, c, d, e] => isDigitCh a && isDigitCh b && c = ':' && isDigitCh d && isDigitCh e
    | _ => false

/-- OnboardingRequest.validate_work_hours. -/
def validate_work_hours (value : String) : Except String String :=
  if (strptimeHM value).isSome then .ok value
  else .error "work hours must use HH:MM 24-hour format (00-23:00-59)"

/-- A work-hours string is accepted by the onboarding request model iff the
`HourString` pattern and the field validator both pass. -/
def onboardingAcceptsHour (s : String) : Bool :=
  hourStringPattern s && (strptimeHM s).isSome

structure AdminAccount where
  email : String
  password : String
  first_name : Option String := none
  last_name : Option String := none
deriving DecidableEq, Repr

/-- models/onboarding.PropertyCreate (bulk onboarding payload). -/
structure OnbPropertyCreate where
  name : String
  address : String
  notes : Option String := none
deriving DecidableEq, Repr

/-- models/onboarding.TechnicianCreate (bulk onboarding payload). -/
structure TechnicianCreate where
  first_name : String
  last_name : String
  phone : Option String := none
  email : Option String := none
  shift : Option String := none
  default_property : Option String := none
  user_id : Option String := none
  merit_percent : Option Nat := some 100
deriving DecidableEq, Repr

structure EmergencyVendorCreate where
  category : String
  name : String
  phone : Option String := none
deriving DecidableEq, Repr

structure OnboardingRequest where
  company_name : Option String := none
  timezone : Option String := none
  work_hours_start : String
  work_hours_end : String
  auto_assign : Bool := true
  on_call_enabled : Bool := false
  on_call_rotation : String := "weekly"
  intake_method : String := "manual"
  collect_pte : Bool := true
  collect_window : Bool := true
  admin_account : Option AdminAccount := none
  properties : List OnbPropertyCreate := []
  technicians : List TechnicianCreate := []
  emergency_vendors : List EmergencyVendorCreate := []
deriving DecidableEq, Repr

structure PropertySummary where
  id : String
  name : String
  address : Option String := none
  notes : Option String := none
deriving DecidableEq, Repr

structure TechnicianSummary where
  id : String
  first_name : Option String := none
  last_name : Option String := none
  email : Option String := none
  phone : Option String := none
  shift : Option String := none
  default_property_id : Option String := none
  default_property_name : Option String := none
deriving DecidableEq, Repr

structure EmergencyVendorSummary where
  id : String
  category : String
  name : String
  phone : Option String := none
deriving DecidableEq, Repr

structure OnboardingSummary where
  company_name : String
  timezone : String
  work_hours_start : String
  work_hours_end : String
  auto_assign : Bool
  on_call_enabled : Bool
  on_call_rotation : String
  intake_method : String
  collect_pte : Bool
  collect_window : Bool
  properties_total : Nat
  technicians_total : Nat
  emergency_vendors_total : Nat
  admin_user_created : Bool
deriving DecidableEq, Repr

structure OnboardingResponse where
  success : Bool
  company_id : String
  summary : OnboardingSummary
deriving DecidableEq, Repr

structure OnboardingStatusResponse where
  company_id : String
  company_name : String
  timezone : String
  timezone_label : String
  work_hours_start : String
  work_hours_end : String
  auto_assign : Bool
  on_call_enabled : Bool
  on_call_rotation : String
  intake_method : String
  collect_pte : Bool
  collect_window : Bool
  properties : List PropertySummary
  technicians : List TechnicianSummary
  emergency_vendors : List EmergencyVendorSummary
  onboarding_completed : Bool
deriving DecidableEq, Repr

/-! ## First-time onboarding — onboarding_service.py lines 126-504 -/

/-- onboarding_service._resolve_property_identifier. -/
def _resolve_property_identifier (db : DB) (identifier : Option String)
    (company_id : String) (newly_created : List (String × String)) :
    Except HErr (Option String) :=
  if ¬ strTruthy identifier then .ok none
  else
    let candidate := pyStrip (identifier.getD "")
    if pyLower candidate ∈ PLACEHOLDER_VALUES then .ok none
    else if uuidReMatch candidate then
      if ¬ _property_belongs_to_company db candidate company_id then
        .error ⟨422, "Property does not belong to this company."⟩
      else .ok (some candidate)
    else
      match dictGet newly_created (pyLower candidate) with
      | some mapped =>
        if mapped ≠ "" then .ok (some mapped)
        else .error ⟨422, "Unknown property reference. Use an existing property UUID or the name from this request."⟩
      | none =>
        .error ⟨422, "Unknown property reference. Use an existing property UUID or the name from this request."⟩

/-- Python dict insertion: a later key overwrites an earlier one. -/
def dictInsert (d : List (String × String)) (k v : String) : List (String × String) :=
  (k, v) :: d.filter (fun p => p.1 ≠ k)

/-- Outcomes of the external calls of the onboarding workflow: server-chosen
row ids for the bulk inserts and credential-store results for the optional
admin account. -/
structure OnbEnv where
  propId : Nat → String := fun n => "prop-" ++ toString n
  techId : Nat → String := fun n => "tech-" ++ toString n
  vendorId : Nat → String := fun n => "vendor-" ++ toString n
  adminCreate : Except String IdentityUser := .error "create failed"
  adminGenLink : Except String Unit := .ok ()
  adminListUsers : Except String (List IdentityUser) := .ok []

/-- onboarding_service._create_or_link_admin. -/
def _create_or_link_admin (env : OnbEnv) (db : DB)
    (company_id admin_email admin_password : String)
    (first_name last_name : Option String) :
    Except HErr (String × Bool) × DB :=
  let email := pyLower (pyStrip admin_email)
  let fn := if pyStrip (first_name.getD "") = "" then "Company" else pyStrip (first_name.getD "")
  let ln := if pyStrip (last_name.getD "") = "" then "Admin" else pyStrip (last_name.getD "")
  let linkExisting : DB → Bool → Except HErr (String × Bool) × DB := fun db0 created =>
    match env.adminListUsers with
    | .ok users =>
      match users.find? (fun u => pyLower u.email = email) with
      | some u => (.ok (u.id, created), db0)
      | none => (.error ⟨400, "Unable to create or link admin user."⟩, db0)
    | .error _ => (.error ⟨400, "Unable to create or link admin user."⟩, db0)
  let attempt : Except HErr (String × Bool) × DB :=
    match env.adminCreate with
    | .ok user =>
      let db1 := { db with identities := db.identities ++ [user] }
      match env.adminGenLink with
      | .ok _ => (.ok (user.id, true), db1)
      | .error _ => linkExisting db1 true
    | .error _ => linkExisting db false
  match attempt with
  | (.error e, dbe) => (.error e, dbe)
  | (.ok (uid, created), db1) =>
    let matched := db1.app_users.filter (fun r => r.user_id = uid)
    let upd : AppUserRow → AppUserRow := fun r =>
      { r with company_id := some company_id, first_name := some fn,
               last_name := some ln, is_active := true }
    if matched = [] then
      let row : AppUserRow :=
        { user_id := uid, company_id := some company_id, first_name := some fn,
          last_name := some ln, is_active := true }
      (.ok (uid, created), { db1 with app_users := db1.app_users ++ [row] })
    else
      let updated := db1.app_users.map (fun r => if r.user_id = uid then upd r else r)
      (.ok (uid, created), { db1 with app_users := updated })

/-- Build one technician row of the bulk insert (onboarding_service.py lines
336-358); the id is assigned by the store at insert time. -/
def build_technician_row (db : DB) (company_id : String)
    (name_map : List (String × String)) (tech : TechnicianCreate) :
    Except HErr TechnicianRow := do
  let user_uuid ← _clean_optional_uuid tech.user_id
  let resolved ← _resolve_property_identifier db tech.default_property company_id name_map
  .ok { id := "",
        company_id := company_id,
        first_name := tech.first_name,
        last_name := tech.last_name,
        phone := tech.phone,
        email := tech.email,
        shift := tech.shift,
        merit_percent := tech.merit_percent.getD 100,
        user_id := if strTruthy user_uuid then user_uuid else none,
        default_property_id := if strTruthy resolved then resolved else none }

/-- Build all technician rows in payload order, failing on the first bad
reference. -/
def build_technician_rows (db : DB) (company_id : String)
    (name_map : List (String × String)) :
    List TechnicianCreate → Except HErr (List TechnicianRow)
  | [] => .ok []
  | t :: ts => do
    let r ← build_technician_row db company_id name_map t
    let rs ← build_technician_rows db company_id name_map ts
    .ok (r :: rs)

/-- onboarding_service.complete_first_time_onboarding. -/
def complete_first_time_onboarding (env : OnbEnv) (db : DB) (user_id : String)
    (payload : OnboardingRequest) (acting_email : String) :
    Except HErr OnboardingResponse × DB :=
  match _get_app_user db user_id with
  | none => (.error ⟨400, "User profile not found. Complete signup before onboarding."⟩, db)
  | some app_user =>
    if ¬ strTruthy app_user.company_id then
      (.error ⟨400, "Company not provisioned. Complete signup first."⟩, db)
    else
      let company_id := app_user.company_id.getD ""
      match _get_company db company_id with
      | none => (.error ⟨400, "Company record missing. Contact support."⟩, db)
      | some company =>
        if _company_has_existing_records db company_id then
          (.error ⟨409, "Onboarding already completed."⟩, db)
        else
          let company_name :=
            if strTruthy payload.company_name then pyStrip (payload.company_name.getD "")
            else company.name
          match _normalize_timezone payload.timezone (company.timezone.getD "America/Detroit") with
          | .error e => (.error e, db)
          | .ok timezone =>
            match _normalize_time payload.work_hours_start with
            | .error e => (.error e, db)
            | .ok work_start =>
              match _normalize_time payload.work_hours_end with
              | .error e => (.error e, db)
              | .ok work_end =>
                let intake := if payload.intake_method = "" then "manual" else payload.intake_method
                let updComp : CompanyRow → CompanyRow := fun c =>
                  { c with name := company_name, timezone := some timezone,
                           work_hours_start := some work_start, work_hours_end := some work_end,
                           auto_assign := payload.auto_assign, intake := intake,
                           collect_pte := payload.collect_pte,
                           collect_window := payload.collect_window,
                           on_call_enabled := payload.on_call_enabled,
                           on_call_rotation := payload.on_call_rotation }
                let companies1 := db.companies.map (fun c => if c.id = company_id then updComp c else c)
                let db1 := { db with companies := companies1 }
                let adminStep : Except HErr Bool × DB :=
                  match payload.admin_account with
                  | none => (.ok false, db1)
                  | some acct =>
                    let admin_email := pyStrip acct.email
                    if pyLower admin_email ≠ pyLower (pyStrip acting_email) then
                      match _create_or_link_admin env db1 company_id admin_email acct.password
                              acct.first_name acct.last_name with
                      | (.error e, dbe) => (.error e, dbe)
                      | (.ok (_, created), db2) => (.ok created, db2)
                    else
                      (.ok false, db1)
                match adminStep with
                | (.error e, dbe) => (.error e, dbe)
                | (.ok admin_created, db2) =>
                  let propRows := payload.properties.enum.map (fun p =>
                    ({ id := env.propId p.1, company_id := company_id, name := p.2.name,
                       address := some p.2.address, notes := p.2.notes } : PropertyRow))
                  let db3 := { db2 with properties := db2.properties ++ propRows }
                  let property_ids := propRows.map (fun r => r.id)
                  let property_name_map :=
                    (payload.properties.zip propRows).foldl
                      (fun m p => dictInsert m (pyLower (pyStrip p.1.name)) p.2.id) []
                  match build_technician_rows db3 company_id property_name_map payload.technicians with
                  | .error e => (.error e, db3)
                  | .ok techRows0 =>
                    let techRows := techRows0.enum.map (fun p => { p.2 with id := env.techId p.1 })
                    let db4 := { db3 with technicians := db3.technicians ++ techRows }
                    let technician_ids := techRows.map (fun r => r.id)
                    let vendorRows := payload.emergency_vendors.enum.map (fun p =>
                      ({ id := env.vendorId p.1, company_id := company_id,
                         category := p.2.category, name := p.2.name,
                         phone := p.2.phone } : VendorRow))
                    let db5 := { db4 with emergency_vendors := db4.emergency_vendors ++ vendorRows }
                    let vendor_ids := vendorRows.map (fun r => r.id)
                    (.ok { success := true,
                           company_id := company_id,
                           summary :=
                             { company_name := company_name,
                               timezone := timezone,
                               work_hours_start := _format_time_for_response (some work_start),
                               work_hours_end := _format_time_for_response (some work_end),
                               auto_assign := payload.auto_assign,
                               on_call_enabled := payload.on_call_enabled,
                               on_call_rotation := payload.on_call_rotation,
                               intake_method := intake,
                               collect_pte := payload.collect_pte,
                               collect_window := payload.collect_window,
                               properties_total := property_ids.length,
                               technicians_total := technician_ids.length,
                               emergency_vendors_total := vendor_ids.length,
                               admin_user_created := admin_created } },
                     db5)

/-- onboarding_service.get_onboarding_status. -/
def get_onboarding_status (db : DB) (user_id : String) :
    Except HErr OnboardingStatusResponse :=
  match _get_app_user db user_id with
  | none => .error ⟨400, "User profile not found."⟩
  | some app_user =>
    if ¬ strTruthy app_user.company_id then .error ⟨400, "Company not provisioned."⟩
    else
      let company_id := app_user.company_id.getD ""
      match _get_company db company_id with
      | none => .error ⟨400, "Company record missing."⟩
      | some company =>
        let properties_data := db.properties.filter (fun r => r.company_id = company_id)
        let technicians_data := db.technicians.filter (fun r => r.company_id = company_id)
        let vendors_data := db.emergency_vendors.filter (fun r => r.company_id = company_id)
        let property_name : Option String → Option String := fun pid =>
          match pid with
          | none => none
          | some p => ((properties_data.filter (fun r => r.id = p)).head?).map (fun r => r.name)
        let timezone := company.timezone.getD "America/Detroit"
        .ok { company_id := company_id,
              company_name := company.name,
              timezone := timezone,
              timezone_label := (dictGet REVERSE_TIMEZONE_ALIASES timezone).getD timezone,
              work_hours_start := _format_time_for_response company.work_hours_start,
              work_hours_end := _format_time_for_response company.work_hours_end,
              auto_assign := company.auto_assign,
              on_call_enabled := company.on_call_enabled,
              on_call_rotation := company.on_call_rotation,
              intake_method := company.intake,
              collect_pte := company.collect_pte,
              collect_window := company.collect_window,
              properties := properties_data.map (fun r =>
                { id := r.id, name := r.name, address := r.address, notes := r.notes }),
              technicians := technicians_data.map (fun r =>
                { id := r.id, first_name := some r.first_name, last_name := some r.last_name,
                  email := r.email, phone := r.phone, shift := r.shift,
                  default_property_id := r.default_property_id,
                  default_property_name := property_name r.default_property_id }),
              emergency_vendors := vendors_data.map (fun r =>
                { id := r.id, category := r.category, name := r.name, phone := r.phone }),
              onboarding_completed :=
                properties_data ≠ [] ∨ technicians_data ≠ [] ∨ vendors_data ≠ [] }

/-! ## Ordering helper

Supabase `order(...)` clauses: modelled as an insertion sort; only membership
in the result matters for the claims below. -/

def insertBy {α : Type} (le : α → α → Bool) (a : α) : List α → List α
  | [] => [a]
  | b :: bs => if le a b then a :: b :: bs else b :: insertBy le a bs

def sortBy {α : Type} (le : α → α → Bool) : List α → List α
  | [] => []
  | a :: as => insertBy le a (sortBy le as)

theorem mem_insertBy {α : Type} (le : α → α → Bool) (a x : α) (l : List α) :
    x ∈ insertBy le a l ↔ x = a ∨ x ∈ l := by
  induction l with
  | nil => simp [insertBy]
  | cons b bs ih =>
    simp only [insertBy]
    by_cases h : le a b = true
    · simp [h, List.mem_cons]
    · simp only [if_neg h, List.mem_cons, ih]
      tauto

theorem mem_sortBy {α : Type} (le : α → α → Bool) (x : α) (l : List α) :
    x ∈ sortBy le l ↔ x ∈ l := by
  induction l with
  | nil => simp [sortBy]
  | cons a as ih => simp [sortBy, mem_insertBy, ih]

/-! ## Tenant-scoped CRUD — routes_properties.py and routes_technicians.py

The route dependency chain (`get_current_active_user` → `_get_app_user`) is
collapsed into `require_company`: the routes all begin with
`if not app_user or not app_user.get("company_id"): 400`. -/

/-- Resolve the acting user to a company id, or the shared 400 error. -/
def require_company (db : DB) (user_id : String) : Except HErr String :=
  match _get_app_user db user_id with
  | some au =>
    if strTruthy au.company_id then .ok (au.company_id.getD "")
    else .error ⟨400, "User is not associated with a company."⟩
  | none => .error ⟨400, "User is not associated with a company."⟩

/-- routes_properties.PropertyUpdate. -/
structure PropertyUpdate where
  name : Option String := none
  address : Option String := none
  notes : Option String := none
deriving DecidableEq, Repr

/-- routes_properties.UnitUpdate. -/
structure UnitUpdate where
  label : Option String := none
  notes : Option String := none
  is_active : Option Bool := none
deriving DecidableEq, Repr

/-- routes_technicians.TechnicianUpdate. -/
structure RouteTechnicianUpdate where
  first_name : Option String := none
  last_name : Option String := none
  phone : Option String := none
  email : Option String := none
  default_property_id : Option String := none
  shift : Option String := none
  merit_percent : Option Nat := none
  availability : Option String := none
deriving DecidableEq, Repr

/-- routes_technicians.TechnicianResponse (with the joined property name). -/
structure RouteTechnicianResponse where
  id : String
  company_id : String
  user_id : Option String := none
  first_name : String
  last_name : String
  phone : Option String := none
  email : Option String := none
  default_property_id : Option String := none
  default_property_name : Option String := none
  shift : Option String := none
  merit_percent : Nat
  availability : String
deriving DecidableEq, Repr

/-- GET /properties: all properties of the caller company, ordered by name. -/
def get_properties (db : DB) (user_id : String) : Except HErr (List PropertyRow) :=
  match require_company db user_id with
  | .error e => .error e
  | .ok cid =>
    .ok (sortBy (fun a b => a.name ≤ b.name) (db.properties.filter (fun r => r.company_id = cid)))

/-- PUT /properties/p: verify company ownership (404 otherwise), require a
non-empty update set (400 otherwise), apply the provided fields. -/
def update_property (db : DB) (user_id property_id : String) (pd : PropertyUpdate) :
    Except HErr PropertyRow × DB :=
  match require_company db user_id with
  | .error e => (.error e, db)
  | .ok cid =>
    let check := db.properties.filter (fun r => r.id = property_id ∧ r.company_id = cid)
    if check = [] then (.error ⟨404, "Property not found"⟩, db)
    else if pd.name = none ∧ pd.address = none ∧ pd.notes = none then
      (.error ⟨400, "No fields to update"⟩, db)
    else
      let apply : PropertyRow → PropertyRow := fun r =>
        { r with name := pd.name.getD r.name,
                 address := if pd.address.isSome then pd.address else r.address,
                 notes := if pd.notes.isSome then pd.notes else r.notes }
      let updated := db.properties.map (fun r =>
        if r.id = property_id ∧ r.company_id = cid then apply r else r)
      let data := updated.filter (fun r => r.id = property_id ∧ r.company_id = cid)
      match data.head? with
      | none => (.error ⟨500, "Failed to update property"⟩, db)
      | some row => (.ok row, { db with properties := updated })

/-- DELETE /properties/p. -/
def delete_property (db : DB) (user_id property_id : String) :
    Except HErr Unit × DB :=
  match require_company db user_id with
  | .error e => (.error e, db)
  | .ok cid =>
    let check := db.properties.filter (fun r => r.id = property_id ∧ r.company_id = cid)
    if check = [] then (.error ⟨404, "Property not found"⟩, db)
    else
      (.ok (),
       { db with properties :=
           db.properties.filter (fun r => ¬ (r.id = property_id ∧ r.company_id = cid)) })

/-- GET /properties/p/units: 404 unless the property belongs to the caller
company, then the units of that property ordered by label. -/
def get_units (db : DB) (user_id property_id : String) : Except HErr (List UnitRow) :=
  match require_company db user_id with
  | .error e => .error e
  | .ok cid =>
    let check := db.properties.filter (fun r => r.id = property_id ∧ r.company_id = cid)
    if check = [] then .error ⟨404, "Property not found"⟩
    else
      .ok (sortBy (fun a b => a.label ≤ b.label)
        (db.property_units.filter (fun r => r.property_id = property_id ∧ r.company_id = cid)))

/-- PUT /units/u. -/
def update_unit (db : DB) (user_id unit_id : String) (ud : UnitUpdate) :
    Except HErr UnitRow × DB :=
  match require_company db user_id with
  | .error e => (.error e, db)
  | .ok cid =>
    let check := db.property_units.filter (fun r => r.id = unit_id ∧ r.company_id = cid)
    if check = [] then (.error ⟨404, "Unit not found"⟩, db)
    else if ud.label = none ∧ ud.notes = none ∧ ud.is_active = none then
      (.error ⟨400, "No fields to update"⟩, db)
    else
      let apply : UnitRow → UnitRow := fun r =>
        { r with label := ud.label.getD r.label,
                 notes := if ud.notes.isSome then ud.notes else r.notes,
                 is_active := ud.is_active.getD r.is_active }
      let updated := db.property_units.map (fun r =>
        if r.id = unit_id ∧ r.company_id = cid then apply r else r)
      let data := updated.filter (fun r => r.id = unit_id ∧ r.company_id = cid)
      match data.head? with
      | none => (.error ⟨500, "Failed to update unit"⟩, db)
      | some row => (.ok row, { db with property_units := updated })

/-- DELETE /units/u. -/
def delete_unit (db : DB) (user_id unit_id : String) : Except HErr Unit × DB :=
  match require_company db user_id with
  | .error e => (.error e, db)
  | .ok cid =>
    let check := db.property_units.filter (fun r => r.id = unit_id ∧ r.company_id = cid)
    if check = [] then (.error ⟨404, "Unit not found"⟩, db)
    else
      (.ok (),
       { db with property_units :=
           db.property_units.filter (fun r => ¬ (r.id = unit_id ∧ r.company_id = cid)) })

/-- GET /technicians: company technicians with the joined default-property
name, ordered by last then first name. -/
def get_technicians (db : DB) (user_id : String) :
    Except HErr (List RouteTechnicianResponse) :=
  match require_company db user_id with
  | .error e => .error e
  | .ok cid =>
  let data := sortBy (fun a b => a.last_name ++ "," ++ a.first_name ≤ b.last_name ++ "," ++ b.first_name)
    (db.technicians.filter (fun r => r.company_id = cid))
  let nameOf : Option String → Option String := fun pid =>
    match pid with
    | none => none
    | some p =>
      if strTruthy (some p) then
        ((db.properties.filter (fun r => r.id = p)).head?).map (fun r => r.name)
      else none
  .ok (data.map (fun r =>
    { id := r.id, company_id := r.company_id, user_id := r.user_id,
      first_name := r.first_name, last_name := r.last_name, phone := r.phone,
      email := r.email, default_property_id := r.default_property_id,
      default_property_name := nameOf r.default_property_id,
      shift := r.shift, merit_percent := r.merit_percent, availability := r.availability }))

/-- PUT /technicians/t: ownership check (404), then default-property
ownership check (400), then non-empty update set (400), then apply. -/
def update_technician (db : DB) (user_id technician_id : String)
    (td : RouteTechnicianUpdate) : Except HErr RouteTechnicianResponse × DB :=
  match require_company db user_id with
  | .error e => (.error e, db)
  | .ok cid =>
    let check := db.technicians.filter (fun r => r.id = technician_id ∧ r.company_id = cid)
    if check = [] then (.error ⟨404, "Technician not found"⟩, db)
    else
      let propOk :=
        if strTruthy td.default_property_id then
          db.properties.filter
            (fun r => r.id = td.default_property_id.getD "" ∧ r.company_id = cid) ≠ []
        else true
      if ¬ propOk then
        (.error ⟨400, "Property not found or does not belong to your company"⟩, db)
      else if td.first_name = none ∧ td.last_name = none ∧ td.phone = none ∧
              td.email = none ∧ td.default_property_id = none ∧ td.shift = none ∧
              td.merit_percent = none ∧ td.availability = none then
        (.error ⟨400, "No fields to update"⟩, db)
      else
        let apply : TechnicianRow → TechnicianRow := fun r =>
          { r with first_name := td.first_name.getD r.first_name,
                   last_name := td.last_name.getD r.last_name,
                   phone := if td.phone.isSome then td.phone else r.phone,
                   email := if td.email.isSome then td.email else r.email,
                   default_property_id :=
                     if td.default_property_id.isSome then td.default_property_id
                     else r.default_property_id,
                   shift := if td.shift.isSome then td.shift else r.shift,
                   merit_percent := td.merit_percent.getD r.merit_percent,
                   availability := td.availability.getD r.availability }
        let updated := db.technicians.map (fun r =>
          if r.id = technician_id ∧ r.company_id = cid then apply r else r)
        let data := updated.filter (fun r => r.id = technician_id ∧ r.company_id = cid)
        match data.head? with
        | none => (.error ⟨500, "Failed to update technician"⟩, db)
        | some row =>
          let property_name :=
            match row.default_property_id with
            | none => none
            | some p =>
              if strTruthy (some p) then
                ((db.properties.filter (fun r => r.id = p)).head?).map (fun r => r.name)
              else none
          (.ok { id := row.id, company_id := row.company_id, user_id := row.user_id,
                 first_name := row.first_name, last_name := row.last_name,
                 phone := row.phone, email := row.email,
                 default_property_id := row.default_property_id,
                 default_property_name := property_name, shift := row.shift,
                 merit_percent := row.merit_percent, availability := row.availability },
           { db with technicians := updated })

/-- DELETE /technicians/t. -/
def delete_technician (db : DB) (user_id technician_id : String) :
    Except HErr Unit × DB :=
  match require_company db user_id with
  | .error e => (.error e, db)
  | .ok cid =>
    let check := db.technicians.filter (fun r => r.id = technician_id ∧ r.company_id = cid)
    if check = [] then (.error ⟨404, "Technician not found"⟩, db)
    else
      (.ok (),
       { db with technicians :=
           db.technicians.filter (fun r => ¬ (r.id = technician_id ∧ r.company_id = cid)) })

/-! ## Work orders — work_order_service.py and models/work_orders.py -/

/-- models/work_orders.WorkOrderCreate (priority already validated to the
lowercase literals by the pydantic model). -/
structure WorkOrderCreate where
  property_id : String
  unit_id : Option String := none
  unit_label : Option String := none
  issue : String
  priority : String := "routine"
  pte : Option Bool := none
  preferred_window : Option String := none
  tenant_name : Option String := none
  tenant_phone : Option String := none
  assigned_technician_id : Option String := none
deriving DecidableEq, Repr

/-- Modelled from the spec: `WorkOrderUpdate` is imported from
app/models/work_orders.py by the work-order service and routes but is not
defined in the sources present under src/.  Spec section 4.7 (optional-field
update structs) and the two uses in update_work_order fix its fields:
an optional technician assignment and an optional status. -/
structure WorkOrderUpdate where
  assigned_technician_id : Option String := none
  wo_status : Option String := none
deriving DecidableEq, Repr

structure WorkOrderResponse where
  id : String
  company_id : String
  property_id : String
  property_name : Option String := none
  unit_id : Option String := none
  unit_label : Option String := none
  issue : String
  priority : String
  wo_status : String
  pte : Option Bool := none
  preferred_window : Option String := none
  tenant_name : Option String := none
  tenant_phone : Option String := none
  assigned_technician_id : Option String := none
  created_at : Nat
deriving DecidableEq, Repr

structure WorkOrderListResponse where
  work_orders : List WorkOrderResponse
  total : Nat
deriving DecidableEq, Repr

/-- Server-chosen values for work-order operations: row ids, creation
timestamps, the status column default, and insert success. -/
structure WoEnv where
  unitId : Nat → String := fun n => "unit-" ++ toString n
  woId : Nat → String := fun n => "wo-" ++ toString n
  woNow : Nat → Nat := fun n => n
  defaultStatus : String := "open"
  unitInsertOk : Nat → Bool := fun _ => true
  woInsertOk : Nat → Bool := fun _ => true

/-- Counters for the server-chosen ids (one per insert performed). -/
structure Gen where
  nextUnit : Nat := 0
  nextWo : Nat := 0
deriving DecidableEq, Repr

/-- work_order_service._ensure_property. -/
def _ensure_property (db : DB) (company_id property_id : String) :
    Except HErr PropertyRow :=
  match (db.properties.filter (fun r => r.id = property_id ∧ r.company_id = company_id)).head? with
  | some row => .ok row
  | none => .error ⟨404, "Property not found for this company."⟩

/-- work_order_service._get_unit. -/
def _get_unit (db : DB) (record_id : String) : Option UnitRow :=
  (db.property_units.filter (fun r => r.id = record_id)).head?

/-- work_order_service._find_unit_by_label. -/
def _find_unit_by_label (db : DB) (property_id label : String) : Option UnitRow :=
  (db.property_units.filter (fun r => r.property_id = property_id ∧ r.label = label)).head?

/-- work_order_service._upsert_unit: resolve an explicit unit id, or look up
the stripped label within the property and insert a fresh unit row when the
label is new. -/
def _upsert_unit (env : WoEnv) (db : DB) (g : Gen)
    (company_id property_id : String) (request : WorkOrderCreate) :
    Except HErr (Option String × Option String) × DB × Gen :=
  let label : Option String :=
    match request.unit_label with
    | none => none
    | some s => if s = "" then none else some (pyStrip s)
  let unit_id : Option String :=
    match request.unit_id with
    | none => none
    | some s => if s = "" then none else some (pyStrip s)
  if strTruthy unit_id then
    match _normalize_uuid (unit_id.getD "") "unit_id" with
    | .error e => (.error e, db, g)
    | .ok normalized =>
      match _get_unit db normalized with
      | some unit =>
        if unit.company_id ≠ company_id ∨ unit.property_id ≠ property_id then
          (.error ⟨422, "Unit does not belong to the selected property."⟩, db, g)
        else
          (.ok (some unit.id, some unit.label), db, g)
      | none => (.error ⟨422, "Unit does not belong to the selected property."⟩, db, g)
  else if strTruthy label then
    match _find_unit_by_label db property_id (label.getD "") with
    | some existing => (.ok (some existing.id, some existing.label), db, g)
    | none =>
      if env.unitInsertOk g.nextUnit then
        let row : UnitRow :=
          { id := env.unitId g.nextUnit, company_id := company_id,
            property_id := property_id, label := label.getD "", is_active := true }
        (.ok (some row.id, some row.label),
         { db with property_units := db.property_units ++ [row] },
         { g with nextUnit := g.nextUnit + 1 })
      else
        (.error ⟨400, "Failed to create unit for property."⟩, db, g)
  else
    (.ok (none, none), db, g)

/-- work_order_service.create_work_order. -/
def create_work_order (env : WoEnv) (db : DB) (g : Gen) (user_id : String)
    (request : WorkOrderCreate) : Except HErr WorkOrderResponse × DB × Gen :=
  match require_company db user_id with
  | .error e => (.error e, db, g)
  | .ok cid =>
    match _ensure_property db cid request.property_id with
    | .error e => (.error e, db, g)
    | .ok property_record =>
      match _upsert_unit env db g cid request.property_id request with
      | (.error e, db1, g1) => (.error e, db1, g1)
      | (.ok (unit_id, unit_label), db1, g1) =>
        let techStep : Except HErr (Option String) :=
          if strTruthy request.assigned_technician_id then
            match _normalize_uuid (request.assigned_technician_id.getD "")
                    "assigned_technician_id" with
            | .error e => .error e
            | .ok normalized =>
              match (db1.technicians.filter
                    (fun r => r.id = normalized ∧ r.company_id = cid)).head? with
              | some t => .ok (some t.id)
              | none => .error ⟨422, "Technician does not belong to this company."⟩
          else
            .ok none
        match techStep with
        | .error e => (.error e, db1, g1)
        | .ok assigned_technician_id =>
          if env.woInsertOk g1.nextWo then
            let record : WorkOrderRow :=
              { id := env.woId g1.nextWo, company_id := cid,
                property_id := request.property_id, unit_id := unit_id,
                unit := unit_label, issue := request.issue,
                priority := request.priority, wo_status := env.defaultStatus,
                pte := request.pte, preferred_window := request.preferred_window,
                tenant_name := request.tenant_name, tenant_phone := request.tenant_phone,
                assigned_technician_id := assigned_technician_id,
                created_at := env.woNow g1.nextWo }
            (.ok { id := record.id, company_id := cid,
                   property_id := record.property_id,
                   property_name := some property_record.name,
                   unit_id := record.unit_id, unit_label := record.unit,
                   issue := record.issue, priority := record.priority,
                   wo_status := record.wo_status, pte := record.pte,
                   preferred_window := record.preferred_window,
                   tenant_name := record.tenant_name,
                   tenant_phone := record.tenant_phone,
                   assigned_technician_id := record.assigned_technician_id,
                   created_at := record.created_at },
             { db1 with work_orders := db1.work_orders ++ [record] },
             { g1 with nextWo := g1.nextWo + 1 })
          else
            (.error ⟨400, "Failed to create work order."⟩, db1, g1)

/-- GET /work-orders (work_order_service.get_work_orders): filter by company
and the optional status/priority filters, count, order by created_at
descending, paginate, join property names. -/
def get_work_orders (db : DB) (user_id : String)
    (status_filter priority_filter : Option String) (limit offset : Nat) :
    Except HErr WorkOrderListResponse :=
  match require_company db user_id with
  | .error e => .error e
  | .ok cid =>
  let rowMatch : WorkOrderRow → Bool := fun r =>
    r.company_id = cid &&
      (if strTruthy status_filter then r.wo_status = status_filter.getD "" else true) &&
      (if strTruthy priority_filter then r.priority = priority_filter.getD "" else true)
  let total := (db.work_orders.filter rowMatch).length
  let page := ((sortBy (fun a b => b.created_at ≤ a.created_at)
    (db.work_orders.filter rowMatch)).drop offset).take limit
  let nameOf : String → Option String := fun pid =>
    ((db.properties.filter (fun r => r.id = pid)).head?).map (fun r => r.name)
  .ok { total := total,
        work_orders := page.map (fun r =>
          { id := r.id, company_id := r.company_id, property_id := r.property_id,
            property_name := nameOf r.property_id, unit_id := r.unit_id,
            unit_label := r.unit, issue := r.issue, priority := r.priority,
            wo_status := r.wo_status, pte := r.pte,
            preferred_window := r.preferred_window, tenant_name := r.tenant_name,
            tenant_phone := r.tenant_phone,
            assigned_technician_id := r.assigned_technician_id,
            created_at := r.created_at }) }

/-- PUT /work-orders/w (work_order_service.update_work_order). -/
def update_work_order (db : DB) (user_id work_order_id : String)
    (update_data : WorkOrderUpdate) : Except HErr WorkOrderResponse × DB :=
  match require_company db user_id with
  | .error e => (.error e, db)
  | .ok cid =>
    let check := db.work_orders.filter (fun r => r.id = work_order_id ∧ r.company_id = cid)
    if check = [] then (.error ⟨404, "Work order not found"⟩, db)
    else
      let techStep : Except HErr (Option (Option String)) :=
        match update_data.assigned_technician_id with
        | none => .ok none
        | some v =>
          if v ≠ "" then
            match _normalize_uuid v "assigned_technician_id" with
            | .error e => .error e
            | .ok normalized =>
              match (db.technicians.filter
                    (fun r => r.id = normalized ∧ r.company_id = cid)).head? with
              | some t => .ok (some (some t.id))
              | none => .error ⟨422, "Technician does not belong to this company."⟩
          else
            .ok (some none)
      match techStep with
      | .error e => (.error e, db)
      | .ok assignedField =>
        if assignedField = none ∧ update_data.wo_status = none then
          (.error ⟨400, "No fields to update"⟩, db)
        else
          let apply : WorkOrderRow → WorkOrderRow := fun r =>
            { r with assigned_technician_id := assignedField.getD r.assigned_technician_id,
                     wo_status := update_data.wo_status.getD r.wo_status }
          let updated := db.work_orders.map (fun r =>
            if r.id = work_order_id ∧ r.company_id = cid then apply r else r)
          let data := updated.filter (fun r => r.id = work_order_id ∧ r.company_id = cid)
          match data.head? with
          | none => (.error ⟨500, "Failed to update work order"⟩, db)
          | some record =>
            let property_name :=
              if strTruthy (some record.property_id) then
                ((db.properties.filter (fun r => r.id = record.property_id)).head?).map
                  (fun r => r.name)
              else none
            (.ok { id := record.id, company_id := cid,
                   property_id := record.property_id, property_name := property_name,
                   unit_id := record.unit_id, unit_label := record.unit,
                   issue := record.issue, priority := record.priority,
                   wo_status := record.wo_status, pte := record.pte,
                   preferred_window := record.preferred_window,
                   tenant_name := record.tenant_name,
                   tenant_phone := record.tenant_phone,
                   assigned_technician_id := record.assigned_technician_id,
                   created_at := record.created_at },
             { db with work_orders := updated })

/-! ## Token service

Modelled from the spec: app/core/security.py (create_access_token,
create_refresh_token, verify_token) is imported by auth_service.py and
api/deps.py but is absent from src/.  Spec sections 4.2 and 7: access tokens
are short-lived and embed subject id and email, refresh tokens are
longer-lived and embed subject id only; verification checks signature,
expiry and token type, and failures surface as unauthorized. -/

inductive TokenType where
  | access
  | refresh
deriving DecidableEq, Repr

/-- The claims carried by a self-issued JWT. -/
structure TokenPayload where
  sub : Option String := none
  email : Option String := none
  typ : TokenType
  exp : Nat
deriving DecidableEq, Repr

/-- A presented token: either garbage, or a payload signed with some key. -/
inductive Token where
  | malformed (raw : String)
  | signed (payload : TokenPayload) (key : String)
deriving DecidableEq, Repr

/-- Token-service configuration (JWT secret and lifetimes in seconds). -/
structure TokenCfg where
  secret : String
  accessLifetime : Nat := 30 * 60
  refreshLifetime : Nat := 7 * 24 * 60 * 60

/-- Modelled from the spec: security.create_access_token. -/
def create_access_token (cfg : TokenCfg) (now : Nat) (sub : String)
    (email : Option String) : Token :=
  .signed { sub := some sub, email := email, typ := .access,
            exp := now + cfg.accessLifetime } cfg.secret

/-- Modelled from the spec: security.create_refresh_token. -/
def create_refresh_token (cfg : TokenCfg) (now : Nat) (sub : String) : Token :=
  .signed { sub := some sub, email := none, typ := .refresh,
            exp := now + cfg.refreshLifetime } cfg.secret

/-- Modelled from the spec: security.verify_token — check signature, expiry
and token type, raising unauthorized on any failure. -/
def verify_token (cfg : TokenCfg) (now : Nat) (token : Token)
    (token_type : TokenType) : Except HErr TokenPayload :=
  match token with
  | .malformed _ => .error ⟨401, "Invalid token"⟩
  | .signed payload key =>
    if key ≠ cfg.secret then .error ⟨401, "Invalid token"⟩
    else if payload.exp ≤ now then .error ⟨401, "Token expired"⟩
    else if payload.typ ≠ token_type then .error ⟨401, "Invalid token type"⟩
    else .ok payload

/-- Outcome of the best-effort admin email lookup during refresh (None when
the service key is missing, the lookup raises, or no user is found). -/
structure RefreshEnv where
  adminEmail : Option String := none

/-- auth_service.refresh_access_token: verify the refresh token, reject a
missing subject, enrich with the best-effort email, mint a new pair. -/
def refresh_access_token (cfg : TokenCfg) (now : Nat) (env : RefreshEnv)
    (refresh_token : Token) : Except HErr (Token × Token) :=
  match verify_token cfg now refresh_token .refresh with
  | .error e => .error e
  | .ok payload =>
    if ¬ strTruthy payload.sub then .error ⟨401, "Invalid refresh token"⟩
    else
      let user_id := payload.sub.getD ""
      let email := if strTruthy env.adminEmail then env.adminEmail else none
      .ok (create_access_token cfg now user_id email,
           create_refresh_token cfg now user_id)

/-! ## The signup route — routes_auth.py lines 19-36

The route body calls `signup_user(signup_data.email, signup_data.password)`
although auth_service.signup_user takes five required positional parameters,
and returns a dict without the `company_id` field that its declared
`response_model=SignupResponse` requires.  Both facts are recorded as data
so they can be stated. -/

/-- The positional parameters of auth_service.signup_user (line 20). -/
def signup_user_param_names : List String :=
  ["email", "password", "first_name", "last_name", "company_name"]

/-- The arguments routes_auth.signup passes to signup_user (line 24). -/
def routes_auth_signup_call_args : List String :=
  ["signup_data.email", "signup_data.password"]

/-- The keys of the dict returned by routes_auth.signup (lines 26-31). -/
def routes_auth_signup_response_keys : List String :=
  ["id", "email", "confirmed", "message"]

/-- The required fields of models/auth.SignupResponse (lines 25-30). -/
def SignupResponse_fields : List String :=
  ["id", "email", "confirmed", "message", "company_id"]

/-! ## Claims -/

/-- C9: timezone normalization accepts exactly the canonical zone identifiers
(the targets of the alias table) unchanged and the fixed human-readable
aliases mapped to their canonical form, and raises a 422 validation error for
every other non-empty input. -/
theorem C9_timezone_normalization (fallback : String) :
    (∀ z ∈ TIMEZONE_ALIASES.map Prod.snd,
        _normalize_timezone (some z) fallback = .ok z) ∧
    (∀ p ∈ TIMEZONE_ALIASES,
        _normalize_timezone (some p.1) fallback = .ok p.2) ∧
    (∀ v : String, v ≠ "" →
        dictGet TIMEZONE_ALIASES (pyStrip v) = none →
        dictGet REVERSE_TIMEZONE_ALIASES (pyStrip v) = none →
        _normalize_timezone (some v) fallback = .error ⟨422, "Unsupported timezone."⟩) := by
  refine ⟨?_, ?_, ?_⟩
  · intro z hz
    simp only [TIMEZONE_ALIASES, List.map, List.mem_cons, List.not_mem_nil, or_false] at hz
    rcases hz with rfl | rfl | rfl | rfl <;> rfl
  · intro p hp
    simp only [TIMEZONE_ALIASES, List.mem_cons, List.not_mem_nil, or_false] at hp
    rcases hp with rfl | rfl | rfl | rfl <;> rfl
  · intro v hv h1 h2
    simp only [_normalize_timezone, strTruthy, hv, ne_eq, not_false_eq_true, Option.getD_some,
      decide_True, if_true, h1, h2, Option.isSome_none, Bool.false_eq_true, if_false]

/-- C9 witness: a canonical identifier passes through unchanged, an alias maps
to its canonical form, and an IANA zone outside the table is rejected. -/
theorem C9_timezone_normalization_witness :
    _normalize_timezone (some "America/Chicago") "America/Detroit" = .ok "America/Chicago" ∧
    _normalize_timezone (some "Pacific (LA)") "America/Detroit" = .ok "America/Los_Angeles" ∧
    _normalize_timezone (some "America/New_York") "America/Detroit" =
      .error ⟨422, "Unsupported timezone."⟩ := by
  refine ⟨?_, ?_, ?_⟩
  · exact (C9_timezone_normalization "America/Detroit").1 "America/Chicago" (by decide)
  · exact (C9_timezone_normalization "America/Detroit").2.1 ("Pacific (LA)", "America/Los_Angeles") (by decide)
  · exact (C9_timezone_normalization "America/Detroit").2.2 "America/New_York" (by decide) (by decide) (by decide)

/-- C10: any technician default_property or user_id value whose stripped,
lowercased form is a placeholder string is silently treated as absent: the
uuid cleaner and property resolver both return None without error, and the
technician row built during first-time onboarding links no user and no
default property — in particular for the value "all". -/
theorem C10_placeholder_values (v : String)
    (h : pyLower (pyStrip v) ∈ PLACEHOLDER_VALUES) :
    _clean_optional_uuid (some v) = .ok none ∧
    (∀ db cid m, _resolve_property_identifier db (some v) cid m = .ok none) ∧
    (∀ db cid m (tech : TechnicianCreate), tech.user_id = some v →
        tech.default_property = some v →
        ∃ row, build_technician_row db cid m tech = .ok row ∧
          row.user_id = none ∧ row.default_property_id = none) := by
  have hplaceholder : (pyLower (pyStrip v) ∈ PLACEHOLDER_VALUES) = True := by
    simp [h]
  have hclean : _clean_optional_uuid (some v) = .ok none := by
    simp only [_clean_optional_uuid, hplaceholder, if_true]
  have hresolve : ∀ db cid m, _resolve_property_identifier db (some v) cid m = .ok none := by
    intro db cid m
    by_cases hv : v = ""
    · subst hv
      simp [_resolve_property_identifier, strTruthy]
    · simp only [_resolve_property_identifier, strTruthy, hv, ne_eq, not_false_eq_true,
        decide_True, Option.getD_some, not_true_eq_false, if_false, hplaceholder, if_true]
  refine ⟨hclean, hresolve, ?_⟩
  intro db cid m tech hu hd
  have hrow : build_technician_row db cid m tech =
      .ok { id := "", company_id := cid, first_name := tech.first_name,
            last_name := tech.last_name, phone := tech.phone, email := tech.email,
            shift := tech.shift, merit_percent := tech.merit_percent.getD 100,
            user_id := none, default_property_id := none } := by
    simp only [build_technician_row, hu, hd, hclean, hresolve db cid m]
    rfl
  exact ⟨_, hrow, rfl, rfl⟩

/-- C10 witness: the value "all" (from the field description promising to
link all properties) links nothing and raises no error. -/
theorem C10_placeholder_values_witness :
    _clean_optional_uuid (some "all") = .ok none ∧
    _resolve_property_identifier {} (some "all") "c1" [] = .ok none ∧
    _resolve_property_identifier {} (some "None") "c1" [] = .ok none := by
  refine ⟨(C10_placeholder_values "all" (by decide)).1,
          (C10_placeholder_values "all" (by decide)).2.1 {} "c1" [],
          (C10_placeholder_values "None" (by decide)).2.1 {} "c1" []⟩

/-! ## C6 demo fixtures: a provisioned user and company with no seed rows -/

def onbDemoDB : DB :=
  { app_users := [{ user_id := "u1", company_id := some "c1" }],
    companies := [{ id := "c1", name := "Acme" }] }

def onbDemoPayload : OnboardingRequest :=
  { work_hours_start := "09:00", work_hours_end := "17:00" }

def onbDemoEnv : OnbEnv := {}

def onbDemoRun : Except HErr OnboardingResponse × DB :=
  complete_first_time_onboarding onbDemoEnv onbDemoDB "u1" onbDemoPayload "a@x.com"

/-- C6 counterexample: the onboarding operation does not accept
"09:00:00" for work_hours_start — the request model restricts the field to
HH:MM (pattern and validator both reject it) — so the claim that "09:00" and
"09:00:00" are both accepted is false, even though the service-level
normalizer would map both to the same stored value. -/
theorem C6_work_hours_counterexample :
    hourStringPattern "09:00:00" = false ∧
    validate_work_hours "09:00:00" =
      .error "work hours must use HH:MM 24-hour format (00-23:00-59)" ∧
    onboardingAcceptsHour "09:00:00" = false ∧
    _normalize_time "09:00:00" = .ok "09:00:00" := by
  refine ⟨by decide, by decide, by decide, by decide⟩

/-- C6 amended: "09:00" is accepted by the onboarding operation, is stored as
"09:00:00", and renders back as "09:00" in a subsequent status query; the
service normalizer maps "09:00:00" to that same stored value, but the request
model rejects "09:00:00" as an input. -/
theorem C6_work_hours_round_trip :
    onboardingAcceptsHour "09:00" = true ∧
    onboardingAcceptsHour "09:00:00" = false ∧
    _normalize_time "09:00" = .ok "09:00:00" ∧
    _normalize_time "09:00:00" = .ok "09:00:00" ∧
    _format_time_for_response (some "09:00:00") = "09:00" ∧
    onbDemoRun.1.map (fun r => r.summary.work_hours_start) = .ok "09:00" ∧
    onbDemoRun.2.companies.map (fun c => c.work_hours_start) = [some "09:00:00"] ∧
    (get_onboarding_status onbDemoRun.2 "u1").map
      (fun st => st.work_hours_start) = .ok "09:00" := by
  refine ⟨by decide, by decide, by decide, by decide, by decide, ?_, ?_, ?_⟩
  · rfl
  · rfl
  · rfl

/-- C8: the refresh operation rejects every token that is not a valid refresh
token — malformed, bad signature, expired, wrong type (an access token), or
missing subject — with a 401 unauthorized error and no token pair; a valid
refresh token mints a fresh access/refresh pair for the same subject. -/
theorem C8_refresh_rejection (cfg : TokenCfg) (now : Nat) (env : RefreshEnv) :
    (∀ raw, refresh_access_token cfg now env (.malformed raw) =
        .error ⟨401, "Invalid token"⟩) ∧
    (∀ p k, k ≠ cfg.secret →
        refresh_access_token cfg now env (.signed p k) = .error ⟨401, "Invalid token"⟩) ∧
    (∀ p, p.exp ≤ now →
        refresh_access_token cfg now env (.signed p cfg.secret) =
          .error ⟨401, "Token expired"⟩) ∧
    (∀ p, now < p.exp → p.typ = .access →
        refresh_access_token cfg now env (.signed p cfg.secret) =
          .error ⟨401, "Invalid token type"⟩) ∧
    (∀ p, now < p.exp → p.typ = .refresh → strTruthy p.sub = false →
        refresh_access_token cfg now env (.signed p cfg.secret) =
          .error ⟨401, "Invalid refresh token"⟩) ∧
    (∀ p s, now < p.exp → p.typ = .refresh → p.sub = some s → s ≠ "" →
        refresh_access_token cfg now env (.signed p cfg.secret) =
          .ok (.signed { sub := some s,
                         email := if strTruthy env.adminEmail then env.adminEmail else none,
                         typ := .access, exp := now + cfg.accessLifetime } cfg.secret,
               .signed { sub := some s, email := none, typ := .refresh,
                         exp := now + cfg.refreshLifetime } cfg.secret)) := by
  refine ⟨?_, ?_, ?_, ?_, ?_, ?_⟩
  · intro raw
    rfl
  · intro p k hk
    simp [refresh_access_token, verify_token, hk]
  · intro p hexp
    simp [refresh_access_token, verify_token, hexp]
  · intro p hexp htyp
    simp [refresh_access_token, verify_token, Nat.not_le_of_lt hexp, htyp]
  · intro p hexp htyp hsub
    simp [refresh_access_token, verify_token, Nat.not_le_of_lt hexp, htyp, hsub]
  · intro p s hexp htyp hsub hs
    simp [refresh_access_token, verify_token, Nat.not_le_of_lt hexp, htyp, hsub,
      strTruthy, hs, create_access_token, create_refresh_token]

/-- C8 witness: an access token presented to refresh is rejected 401; a valid
refresh token yields a new pair for the same subject. -/
theorem C8_refresh_rejection_witness :
    refresh_access_token ⟨"k", 1800, 604800⟩ 100 {}
      (.signed { sub := some "u1", email := some "a@x.com", typ := .access, exp := 200 } "k") =
      .error ⟨401, "Invalid token type"⟩ ∧
    refresh_access_token ⟨"k", 1800, 604800⟩ 100 {}
      (.signed { sub := some "u1", typ := .refresh, exp := 200 } "k") =
      .ok (.signed { sub := some "u1", email := none, typ := .access, exp := 1900 } "k",
           .signed { sub := some "u1", email := none, typ := .refresh, exp := 604900 } "k") := by
  constructor
  · exact (C8_refresh_rejection ⟨"k", 1800, 604800⟩ 100 {}).2.2.2.1
      { sub := some "u1", email := some "a@x.com", typ := .access, exp := 200 }
      (by decide) rfl
  · exact (C8_refresh_rejection ⟨"k", 1800, 604800⟩ 100 {}).2.2.2.2.2
      { sub := some "u1", typ := .refresh, exp := 200 } "u1"
      (by decide) rfl rfl (by decide)

/-- C3: when a company already has at least one property, technician or
emergency-vendor row, any further call to complete_first_time_onboarding for
a user of that company fails with 409 Conflict and leaves the database
unchanged (no duplicated properties, technicians or vendors). -/
theorem C3_onboarding_runs_once (env : OnbEnv) (db : DB) (uid : String)
    (payload : OnboardingRequest) (acting_email : String)
    (au : AppUserRow) (cid : String) (company : CompanyRow)
    (hau : _get_app_user db uid = some au)
    (hcid : au.company_id = some cid) (hne : cid ≠ "")
    (hc : _get_company db cid = some company)
    (hex : _company_has_existing_records db cid = true) :
    complete_first_time_onboarding env db uid payload acting_email =
      (.error ⟨409, "Onboarding already completed."⟩, db) := by
  have hgd : au.company_id.getD "" = cid := by rw [hcid]; rfl
  simp only [complete_first_time_onboarding, hau, hcid, strTruthy, hne, ne_eq,
    not_false_eq_true, decide_True, not_true_eq_false, if_false, Option.getD_some, hc, hex,
    if_true]

/-- C3 fixture: the demo company after seeding one property. -/
def onbSeededDB : DB :=
  { app_users := [{ user_id := "u1", company_id := some "c1" }],
    companies := [{ id := "c1", name := "Acme" }],
    properties := [{ id := "p1", company_id := "c1", name := "Main St" }] }

/-- C3 witness: with one property already present, onboarding again returns
409 Conflict and the database is unchanged. -/
theorem C3_onboarding_runs_once_witness :
    complete_first_time_onboarding onbDemoEnv onbSeededDB "u1" onbDemoPayload "a@x.com" =
      (.error ⟨409, "Onboarding already completed."⟩, onbSeededDB) := by
  exact C3_onboarding_runs_once onbDemoEnv onbSeededDB "u1" onbDemoPayload "a@x.com"
    { user_id := "u1", company_id := some "c1" } "c1" { id := "c1", name := "Acme" }
    (by decide) rfl (by decide) (by decide) (by decide)

/-- Evaluation of the cleanup handler when both delete calls succeed. -/
theorem signup_cleanup_ok (env : SignupEnv) (db : DB) (uid : String)
    (cido : Option String) (msg : String)
    (hdelU : env.deleteUser = .ok ()) (hdelC : env.deleteCompany = .ok ()) :
    signup_cleanup env db (some uid) cido msg =
      (.error (.exc ("Supabase signup failed: " ++ msg)),
       (match cido with
        | none => { db with identities := db.identities.filter (fun i => i.id ≠ uid) }
        | some c => { db with identities := db.identities.filter (fun i => i.id ≠ uid),
                              companies := db.companies.filter (fun r => r.id ≠ c) }),
       ExtCall.deleteUser uid ::
         (match cido with | none => [] | some c => [ExtCall.deleteCompany c])) := by
  cases cido <;> simp [signup_cleanup, hdelU, hdelC]

/-- Appending a row with a fresh key and then filtering that key away is the
identity on the original table. -/
theorem filter_fresh_append {α : Type} (l : List α) (f : α → String) (x : α)
    (k : String) (hx : f x = k) (hfresh : ∀ a ∈ l, f a ≠ k) :
    (l ++ [x]).filter (fun a => f a ≠ k) = l := by
  rw [List.filter_append]
  have h1 : l.filter (fun a => f a ≠ k) = l := by
    apply List.filter_eq_self.mpr
    intro a ha
    simpa using hfresh a ha
  have h2 : [x].filter (fun a => f a ≠ k) = [] := by
    simp [List.filter, hx]
  rw [h1, h2, List.append_nil]

/-- C2: whenever identity creation succeeds but the company insert or the
app_users profile step fails, signup deletes the just-created identity and,
if it was created, the company row, before surfacing the wrapped error, and
no app_users row persists (the table is exactly as before the call). -/
theorem C2_signup_compensating_cleanup (env : SignupEnv) (db : DB)
    (email pw fn ln co : String) (u : IdentityUser)
    (hpw : validate_password_strength pw = true)
    (hcreate : env.createUser = .ok u)
    (hstep : (∃ e, env.insertCompany = .error e) ∨
             (db.app_users.filter (fun r => r.user_id = u.id) = [] ∧
              ∃ e, env.insertAppUsers = .error e))
    (hdelU : env.deleteUser = .ok ())
    (hdelC : env.deleteCompany = .ok ())
    (hufresh : ∀ i ∈ db.identities, i.id ≠ u.id)
    (hcfresh : ∀ cid, env.insertCompany = .ok cid → ∀ c ∈ db.companies, c.id ≠ cid) :
    (∃ msg, (signup_user env db email pw fn ln co).1 = .error (.exc msg)) ∧
    (signup_user env db email pw fn ln co).2.1.identities = db.identities ∧
    (signup_user env db email pw fn ln co).2.1.companies = db.companies ∧
    (signup_user env db email pw fn ln co).2.1.app_users = db.app_users ∧
    ExtCall.deleteUser u.id ∈ (signup_user env db email pw fn ln co).2.2 ∧
    (∀ cid, env.insertCompany = .ok cid →
        ExtCall.deleteCompany cid ∈ (signup_user env db email pw fn ln co).2.2) := by
  have hid : ({ db with identities := db.identities ++ [u] } : DB).identities.filter
      (fun i => i.id ≠ u.id) = db.identities :=
    filter_fresh_append db.identities (fun i => i.id) u u.id rfl hufresh
  rcases henvCo : env.insertCompany with e | cid
  · -- company insert failed: cleanup deletes the identity only
    simp only [signup_user, hpw, Bool.true_eq_false, not_true_eq_false, if_false, hcreate,
      henvCo, signup_cleanup_ok env _ u.id none e hdelU hdelC]
    refine ⟨⟨_, rfl⟩, ?_, ?_, ?_, ?_, ?_⟩
    · simpa using hid
    · first | rfl | trivial
    · first | rfl | trivial
    · simp
    · intro cid hcid
      simp at hcid
  · -- company insert succeeded: the profile step must be the failing one
    rcases hstep with ⟨e, hco⟩ | ⟨hmatch, e, hprof⟩
    · rw [henvCo] at hco
      cases hco
    · have hmatch2 : ({ db with identities := db.identities ++ [u], companies := db.companies ++ [{ id := cid, name := co }] } : DB).app_users.filter (fun r => r.user_id = u.id) = [] := hmatch
      simp only [signup_user, hpw, Bool.true_eq_false, not_true_eq_false, if_false, hcreate,
        henvCo, hmatch2, if_true, hprof,
        signup_cleanup_ok env _ u.id (some cid) e hdelU hdelC]
      refine ⟨⟨_, rfl⟩, ?_, ?_, ?_, ?_, ?_⟩
      · simpa using hid
      · simpa using filter_fresh_append db.companies (fun c => c.id)
          { id := cid, name := co } cid rfl (hcfresh cid henvCo)
      · first | rfl | trivial
      · simp
      · intro cid2 hcid2
        injection hcid2 with h
        subst h
        simp

/-- C2 fixture: identity creation succeeds, company insert fails. -/
def c2Env : SignupEnv :=
  { createUser := .ok { id := "u9", email := "a@x.com" },
    insertCompany := .error "company insert failed",
    insertAppUsers := .ok () }

/-- C2 witness: on an empty store the failed signup leaves no identity behind
and the trace shows the compensating delete of the created identity. -/
theorem C2_signup_compensating_cleanup_witness :
    (signup_user c2Env {} "a@x.com" "Abcdef1!" "A" "B" "Acme").2.1.identities =
      ([] : List IdentityUser) ∧
    ExtCall.deleteUser "u9" ∈ (signup_user c2Env {} "a@x.com" "Abcdef1!" "A" "B" "Acme").2.2 := by
  have h := C2_signup_compensating_cleanup c2Env {} "a@x.com" "Abcdef1!" "A" "B" "Acme"
    { id := "u9", email := "a@x.com" } (by decide) rfl
    (Or.inl ⟨"company insert failed", rfl⟩) rfl rfl
    (by decide)
    (fun cid hcid => by simp [c2Env] at hcid)
  exact ⟨h.2.1, h.2.2.2.2.1⟩

/-- A lookahead over a string none of whose characters satisfy the class
fails. -/
theorem lookaheadHas_false (cs : List Char) (pred : Char → Bool)
    (h : ∀ c ∈ cs, pred c = false) : lookaheadHas cs pred = false := by
  simp only [lookaheadHas, List.any_eq_false]
  intro c hc
  simp [h c ((List.takeWhile_sublist _).mem hc)]

/-- The password regex fails whenever one of its five factors fails. -/
theorem passwordRegexMatch_false_of_lookahead (p : String)
    (h : lookaheadHas p.data (fun c => 'a' ≤ c && c ≤ 'z') = false ∨
         lookaheadHas p.data (fun c => 'A' ≤ c && c ≤ 'Z') = false ∨
         lookaheadHas p.data isDigitCh = false ∨
         lookaheadHas p.data (fun c => decide (c ∈ PW_SYMBOLS)) = false) :
    passwordRegexMatch p = false := by
  simp only [passwordRegexMatch]
  cases hb : pyDollarBody p.data with
  | none => simp [hb]
  | some body =>
    rcases h with h | h | h | h <;> simp [hb, h]

/-- C4 fixture: a live environment for a signup that goes through. -/
def c4Env : SignupEnv :=
  { createUser := .ok { id := "u1", email := "a@x.com" },
    insertCompany := .ok "c1",
    insertAppUsers := .ok () }

/-- A 65-character password (64 body characters plus a trailing newline). -/
def pw65 : String := "Aa1@" ++ ⟨List.replicate 60 'a'⟩ ++ "\n"

/-- C4 counterexample: this 65-character password violates the stated length
policy, yet the regex accepts it (Python `$` matches before a single trailing
newline), so signup raises no validation error and its first external call —
identity creation at the credential store — is performed. -/
theorem C4_password_gate_counterexample :
    pw65.length = 65 ∧
    validate_password_strength pw65 = true ∧
    (signup_user c4Env {} "a@x.com" pw65 "A" "B" "Acme").2.2.head? =
      some ExtCall.createUser := by
  refine ⟨by decide, by decide, by decide⟩

/-- C4 amended: every password the regex rejects — among them every password
without a trailing-newline quirk whose length lies outside 8-64, and every
password missing a lowercase letter, an uppercase letter, a digit, or a
symbol of the fixed set — makes signup_user raise the ValueError immediately,
with no external call performed and the store untouched. -/
theorem C4_password_gate (p : String) (env : SignupEnv) (db : DB)
    (email fn ln co : String) :
    (validate_password_strength p = false →
        signup_user env db email p fn ln co =
          (.error (.valueError
            "Password must be 8-64 characters long and include uppercase, lowercase, digit, and special character."),
           db, [])) ∧
    (p.data.contains '\n' = false → p.length < 8 ∨ 64 < p.length →
        validate_password_strength p = false) ∧
    ((∀ c ∈ p.data, ('a' ≤ c && c ≤ 'z') = false) →
        validate_password_strength p = false) ∧
    ((∀ c ∈ p.data, ('A' ≤ c && c ≤ 'Z') = false) →
        validate_password_strength p = false) ∧
    ((∀ c ∈ p.data, isDigitCh c = false) → validate_password_strength p = false) ∧
    ((∀ c ∈ p.data, c ∉ PW_SYMBOLS) →
        validate_password_strength p = false) := by
  refine ⟨?_, ?_, ?_, ?_, ?_, ?_⟩
  · intro h
    simp [signup_user, h]
  · intro hnl hlen
    have hnl2 : '\n' ∉ p.data := by simpa using hnl
    have hbody : pyDollarBody p.data = some p.data := by
      simp [pyDollarBody, hnl2]
    have hplen : p.data.length = p.length := rfl
    have hlen2 : decide (8 ≤ p.data.length ∧ p.data.length ≤ 64) = false := by
      rw [decide_eq_false_iff_not]
      rw [hplen]
      omega
    simp only [validate_password_strength, passwordRegexMatch, hbody, hlen2]
    simp
  · intro h
    exact passwordRegexMatch_false_of_lookahead p (Or.inl (lookaheadHas_false _ _ h))
  · intro h
    exact passwordRegexMatch_false_of_lookahead p
      (Or.inr (Or.inl (lookaheadHas_false _ _ h)))
  · intro h
    exact passwordRegexMatch_false_of_lookahead p
      (Or.inr (Or.inr (Or.inl (lookaheadHas_false _ _ h))))
  · intro h
    exact passwordRegexMatch_false_of_lookahead p
      (Or.inr (Or.inr (Or.inr
        (lookaheadHas_false _ _ (fun c hc => decide_eq_false (h c hc))))))

/-- C4 witness: the spec examples — a 7-character password and a
digit-free password — are rejected before any external call. -/
theorem C4_password_gate_witness :
    signup_user c4Env {} "a@x.com" "short1!" "A" "B" "Acme" =
      (.error (.valueError
        "Password must be 8-64 characters long and include uppercase, lowercase, digit, and special character."),
       ({} : DB), []) ∧
    validate_password_strength "NoDigits!!" = false := by
  constructor
  · exact (C4_password_gate "short1!" c4Env {} "a@x.com" "A" "B" "Acme").1 (by decide)
  · exact (C4_password_gate "NoDigits!!" c4Env {} "a@x.com" "A" "B" "Acme").2.2.2.2.1
      (by decide)

/-- The cleanup handler always re-raises the wrapped error, whatever the two
delete calls do. -/
theorem signup_cleanup_fst (env : SignupEnv) (db : DB) (uid cido : Option String)
    (msg : String) :
    (signup_cleanup env db uid cido msg).1 =
      .error (.exc ("Supabase signup failed: " ++ msg)) := by
  unfold signup_cleanup
  cases uid <;> cases cido <;> cases env.deleteUser <;> cases env.deleteCompany <;> rfl

/-- C7: the service-level signup result carries the identity id, the email,
a false confirmation flag, the human-readable message, and the id of the
company created in this run — while the signup route calls the service with
fewer arguments than its required parameters and omits the company_id field
its own response model requires. -/
theorem C7_signup_success_result (env : SignupEnv) (db : DB)
    (email pw fn ln co : String) (u : IdentityUser) (res : SignupResult)
    (hcreate : env.createUser = .ok u) (hconf : u.email_confirmed_at = none)
    (hok : (signup_user env db email pw fn ln co).1 = .ok res) :
    res.id = u.id ∧ res.email = u.email ∧ res.confirmed = false ∧
    res.message =
      "Signup successful. We sent a 6-digit code to your email to verify your account." ∧
    (∃ cid, env.insertCompany = .ok cid ∧ res.company_id = cid) ∧
    routes_auth_signup_call_args.length < signup_user_param_names.length ∧
    "company_id" ∈ SignupResponse_fields ∧
    "company_id" ∉ routes_auth_signup_response_keys := by
  by_cases hv : validate_password_strength pw = true
  · simp only [signup_user, hv, not_true_eq_false, if_false, hcreate] at hok
    rcases hco : env.insertCompany with e | cid
    · simp only [hco] at hok
      rw [signup_cleanup_fst] at hok
      simp at hok
    · simp only [hco] at hok
      by_cases hm : List.filter (fun r => decide (r.user_id = u.id)) db.app_users = []
      · simp only [hm, if_true] at hok
        rcases hprof : env.insertAppUsers with e | x
        · simp only [hprof] at hok
          rw [signup_cleanup_fst] at hok
          simp at hok
        · simp only [hprof, Except.ok.injEq] at hok
          subst hok
          refine ⟨rfl, rfl, by simp [hconf], rfl, ⟨cid, rfl, rfl⟩, by decide, by decide,
            by decide⟩
      · simp only [hm, if_false, Except.ok.injEq] at hok
        subst hok
        refine ⟨rfl, rfl, by simp [hconf], rfl, ⟨cid, rfl, rfl⟩, by decide, by decide,
          by decide⟩
  · have hv2 : validate_password_strength pw = false := by
      cases h2 : validate_password_strength pw
      · rfl
      · exact absurd h2 hv
    simp [signup_user, hv2] at hok

/-- The service-level result of the witness signup run. -/
def c7Res : SignupResult :=
  { id := "u1", email := "a@x.com", confirmed := false,
    message := "Signup successful. We sent a 6-digit code to your email to verify your account.",
    company_id := "c1" }

/-- C7 witness: a concrete successful service-level signup produces all five
fields; the route-level argument/field mismatches hold. -/
theorem C7_signup_success_result_witness :
    c7Res.id = "u1" ∧ c7Res.email = "a@x.com" ∧ c7Res.confirmed = false ∧
    c7Res.message =
      "Signup successful. We sent a 6-digit code to your email to verify your account." ∧
    (∃ cid, c4Env.insertCompany = .ok cid ∧ c7Res.company_id = cid) ∧
    routes_auth_signup_call_args.length < signup_user_param_names.length ∧
    "company_id" ∈ SignupResponse_fields ∧
    "company_id" ∉ routes_auth_signup_response_keys :=
  C7_signup_success_result c4Env {} "a@x.com" "Abcdef1!" "A" "B" "Acme"
    { id := "u1", email := "a@x.com" } c7Res rfl rfl (by decide)

/-! ## C5 — unit resolution is idempotent by label within a property -/

/-- Number of unit rows with a given label within a property. -/
def unitLabelCount (d : DB) (pid lbl : String) : Nat :=
  (d.property_units.filter (fun r => r.property_id = pid ∧ r.label = lbl)).length

/-- The unit row inserted by `_upsert_unit` for a new label. -/
def newUnitRow (env : WoEnv) (g : Gen) (cid pid lbl : String) : UnitRow :=
  { id := env.unitId g.nextUnit, company_id := cid, property_id := pid,
    label := lbl, is_active := true }

/-- The work-order row inserted by `create_work_order` (no technician). -/
def cwRecord (env : WoEnv) (g : Gen) (cid : String) (req : WorkOrderCreate)
    (uo lo : Option String) : WorkOrderRow :=
  { id := env.woId g.nextWo, company_id := cid, property_id := req.property_id,
    unit_id := uo, unit := lo, issue := req.issue, priority := req.priority,
    wo_status := env.defaultStatus, pte := req.pte,
    preferred_window := req.preferred_window, tenant_name := req.tenant_name,
    tenant_phone := req.tenant_phone, assigned_technician_id := none,
    created_at := env.woNow g.nextWo }

/-- The response `create_work_order` builds from that row. -/
def cwResponse (env : WoEnv) (g : Gen) (cid : String) (req : WorkOrderCreate)
    (uo lo : Option String) (pname : String) : WorkOrderResponse :=
  { id := env.woId g.nextWo, company_id := cid, property_id := req.property_id,
    property_name := some pname, unit_id := uo, unit_label := lo,
    issue := req.issue, priority := req.priority, wo_status := env.defaultStatus,
    pte := req.pte, preferred_window := req.preferred_window,
    tenant_name := req.tenant_name, tenant_phone := req.tenant_phone,
    assigned_technician_id := none, created_at := env.woNow g.nextWo }

/-- A provisioned caller resolves to their company id. -/
theorem require_company_ok (db : DB) (uid : String) (au : AppUserRow) (cid : String)
    (hau : _get_app_user db uid = some au) (hcid : au.company_id = some cid)
    (hne : cid ≠ "") : require_company db uid = .ok cid := by
  simp [require_company, hau, hcid, strTruthy, hne]

/-- `_upsert_unit` in label mode when the label already exists. -/
theorem upsert_unit_found (env : WoEnv) (db : DB) (g : Gen)
    (cid pid : String) (req : WorkOrderCreate) (lbl : String) (eu : UnitRow)
    (hU : req.unit_id = none) (hL : req.unit_label = some lbl)
    (hlbl : lbl ≠ "") (hstrip : pyStrip lbl ≠ "")
    (hfind : _find_unit_by_label db pid (pyStrip lbl) = some eu) :
    _upsert_unit env db g cid pid req = (.ok (some eu.id, some eu.label), db, g) := by
  simp [_upsert_unit, hU, hL, hlbl, strTruthy, hstrip, hfind]

/-- `_upsert_unit` in label mode when the label is new: a fresh unit row is
inserted. -/
theorem upsert_unit_insert (env : WoEnv) (db : DB) (g : Gen)
    (cid pid : String) (req : WorkOrderCreate) (lbl : String)
    (hU : req.unit_id = none) (hL : req.unit_label = some lbl)
    (hlbl : lbl ≠ "") (hstrip : pyStrip lbl ≠ "")
    (hfind : _find_unit_by_label db pid (pyStrip lbl) = none)
    (hok : env.unitInsertOk g.nextUnit = true) :
    _upsert_unit env db g cid pid req =
      (.ok (some (env.unitId g.nextUnit), some (pyStrip lbl)),
       { db with property_units :=
           db.property_units ++ [newUnitRow env g cid pid (pyStrip lbl)] },
       { g with nextUnit := g.nextUnit + 1 }) := by
  simp [_upsert_unit, hU, hL, hlbl, strTruthy, hstrip, hfind, hok, newUnitRow]

/-- One full evaluation of `create_work_order` (no technician requested). -/
theorem create_work_order_eval (env : WoEnv) (db : DB) (g : Gen) (uid : String)
    (req : WorkOrderCreate) (cid : String) (prop : PropertyRow)
    (uo lo : Option String) (db' : DB) (g' : Gen)
    (hreq : require_company db uid = .ok cid)
    (hprop : _ensure_property db cid req.property_id = .ok prop)
    (hupsert : _upsert_unit env db g cid req.property_id req = (.ok (uo, lo), db', g'))
    (hT : req.assigned_technician_id = none)
    (hwo : env.woInsertOk g'.nextWo = true) :
    create_work_order env db g uid req =
      (.ok (cwResponse env g' cid req uo lo prop.name),
       { db' with work_orders := db'.work_orders ++ [cwRecord env g' cid req uo lo] },
       { g' with nextWo := g'.nextWo + 1 }) := by
  simp [create_work_order, hreq, hprop, hupsert, hT, strTruthy, hwo, cwResponse, cwRecord]

/-- C5: creating two work orders for the same property with the same
unit_label and no unit_id resolves both to the same unit id; the second call
adds no unit row, and the label has exactly one row within the property when
it was new (and an unchanged count when it already existed). -/
theorem C5_unit_label_idempotent (env : WoEnv) (db : DB) (g : Gen) (uid : String)
    (req : WorkOrderCreate) (au : AppUserRow) (cid : String) (prop : PropertyRow)
    (lbl : String)
    (hau : _get_app_user db uid = some au) (hcid : au.company_id = some cid)
    (hne : cid ≠ "")
    (hprop : _ensure_property db cid req.property_id = .ok prop)
    (hU : req.unit_id = none) (hL : req.unit_label = some lbl)
    (hlbl : lbl ≠ "") (hstrip : pyStrip lbl ≠ "")
    (hT : req.assigned_technician_id = none)
    (henvU : ∀ n, env.unitInsertOk n = true) (henvW : ∀ n, env.woInsertOk n = true) :
    ∃ w1 w2,
      (create_work_order env db g uid req).1 = .ok w1 ∧
      (create_work_order env (create_work_order env db g uid req).2.1
          (create_work_order env db g uid req).2.2 uid req).1 = .ok w2 ∧
      w1.unit_id = w2.unit_id ∧ w1.unit_id ≠ none ∧
      (create_work_order env (create_work_order env db g uid req).2.1
          (create_work_order env db g uid req).2.2 uid req).2.1.property_units =
        (create_work_order env db g uid req).2.1.property_units ∧
      unitLabelCount (create_work_order env db g uid req).2.1 req.property_id (pyStrip lbl) =
        (if unitLabelCount db req.property_id (pyStrip lbl) = 0 then 1
         else unitLabelCount db req.property_id (pyStrip lbl)) := by
  have hreq : require_company db uid = .ok cid := require_company_ok db uid au cid hau hcid hne
  cases hfind : _find_unit_by_label db req.property_id (pyStrip lbl) with
  | some eu =>
    have hup1 := upsert_unit_found env db g cid req.property_id req lbl eu
      hU hL hlbl hstrip hfind
    have h1 := create_work_order_eval env db g uid req cid prop (some eu.id)
      (some eu.label) db g hreq hprop hup1 hT (henvW g.nextWo)
    rw [h1]
    dsimp only
    set db1 : DB := { db with work_orders := db.work_orders ++ [cwRecord env g cid req (some eu.id) (some eu.label)] } with hdb1
    set g1 : Gen := { g with nextWo := g.nextWo + 1 } with hg1
    have hreq2 : require_company db1 uid = .ok cid := hreq
    have hprop2 : _ensure_property db1 cid req.property_id = .ok prop := hprop
    have hfind2 : _find_unit_by_label db1 req.property_id (pyStrip lbl) = some eu := hfind
    have hup2 := upsert_unit_found env db1 g1 cid req.property_id req lbl eu
      hU hL hlbl hstrip hfind2
    have h2 := create_work_order_eval env db1 g1 uid req cid prop (some eu.id)
      (some eu.label) db1 g1 hreq2 hprop2 hup2 hT (henvW g1.nextWo)
    rw [h2]
    dsimp only
    have hne0 : unitLabelCount db req.property_id (pyStrip lbl) ≠ 0 := by
      intro h0
      have hnil : db.property_units.filter
          (fun r => r.property_id = req.property_id ∧ r.label = pyStrip lbl) = [] :=
        List.length_eq_zero.mp h0
      rw [_find_unit_by_label, hnil] at hfind
      simp at hfind
    refine ⟨cwResponse env g cid req (some eu.id) (some eu.label) prop.name,
            cwResponse env g1 cid req (some eu.id) (some eu.label) prop.name,
            rfl, rfl, rfl, by simp [cwResponse], rfl, ?_⟩
    rw [if_neg hne0]
    rfl
  | none =>
    have hup1 := upsert_unit_insert env db g cid req.property_id req lbl
      hU hL hlbl hstrip hfind (henvU g.nextUnit)
    set dbU : DB := { db with property_units := db.property_units ++ [newUnitRow env g cid req.property_id (pyStrip lbl)] } with hdbU
    set gU : Gen := { g with nextUnit := g.nextUnit + 1 } with hgU
    have h1 := create_work_order_eval env db g uid req cid prop
      (some (env.unitId g.nextUnit)) (some (pyStrip lbl)) dbU gU hreq hprop hup1 hT
      (henvW gU.nextWo)
    rw [h1]
    dsimp only
    set db1 : DB := { dbU with work_orders := dbU.work_orders ++ [cwRecord env gU cid req (some (env.unitId g.nextUnit)) (some (pyStrip lbl))] } with hdb1
    set g1 : Gen := { gU with nextWo := gU.nextWo + 1 } with hg1
    have hfilter : db.property_units.filter
        (fun r => r.property_id = req.property_id ∧ r.label = pyStrip lbl) = [] := by
      rw [_find_unit_by_label] at hfind
      cases hfl : db.property_units.filter
          (fun r => r.property_id = req.property_id ∧ r.label = pyStrip lbl) with
      | nil => rfl
      | cons a t =>
        rw [hfl] at hfind
        simp at hfind
    have hpu : db1.property_units =
        db.property_units ++ [newUnitRow env g cid req.property_id (pyStrip lbl)] := rfl
    have hfind2 : _find_unit_by_label db1 req.property_id (pyStrip lbl) =
        some (newUnitRow env g cid req.property_id (pyStrip lbl)) := by
      rw [_find_unit_by_label, hpu, List.filter_append, hfilter]
      simp [newUnitRow]
    have hreq2 : require_company db1 uid = .ok cid := hreq
    have hprop2 : _ensure_property db1 cid req.property_id = .ok prop := hprop
    have hup2 := upsert_unit_found env db1 g1 cid req.property_id req lbl
      (newUnitRow env g cid req.property_id (pyStrip lbl)) hU hL hlbl hstrip hfind2
    have h2 := create_work_order_eval env db1 g1 uid req cid prop
      (some (newUnitRow env g cid req.property_id (pyStrip lbl)).id)
      (some (newUnitRow env g cid req.property_id (pyStrip lbl)).label) db1 g1
      hreq2 hprop2 hup2 hT (henvW g1.nextWo)
    rw [h2]
    dsimp only
    have hcount1 : unitLabelCount db1 req.property_id (pyStrip lbl) = 1 := by
      rw [unitLabelCount, hpu, List.filter_append, hfilter]
      simp [newUnitRow]
    have hcount0 : unitLabelCount db req.property_id (pyStrip lbl) = 0 := by
      rw [unitLabelCount, hfilter]
      rfl
    refine ⟨cwResponse env gU cid req (some (env.unitId g.nextUnit)) (some (pyStrip lbl)) prop.name,
            cwResponse env g1 cid req
              (some (newUnitRow env g cid req.property_id (pyStrip lbl)).id)
              (some (newUnitRow env g cid req.property_id (pyStrip lbl)).label) prop.name,
            rfl, rfl, rfl, by simp [cwResponse], rfl, ?_⟩
    rw [hcount1, hcount0, if_pos rfl]

/-- C5 fixture: one company, one property, no units yet. -/
def c5DB : DB :=
  { app_users := [{ user_id := "u1", company_id := some "c1" }],
    companies := [{ id := "c1", name := "Acme" }],
    properties := [{ id := "p1", company_id := "c1", name := "Main St" }] }

def c5Req : WorkOrderCreate :=
  { property_id := "p1", unit_label := some "Apt 3B", issue := "leaky sink" }

/-- C5 witness: two work orders with unit_label "Apt 3B" for property p1
resolve to the same unit id and leave a single unit row for that label. -/
theorem C5_unit_label_idempotent_witness :
    ∃ w1 w2,
      (create_work_order {} c5DB {} "u1" c5Req).1 = .ok w1 ∧
      (create_work_order {} (create_work_order {} c5DB {} "u1" c5Req).2.1
          (create_work_order {} c5DB {} "u1" c5Req).2.2 "u1" c5Req).1 = .ok w2 ∧
      w1.unit_id = w2.unit_id ∧ w1.unit_id ≠ none ∧
      (create_work_order {} (create_work_order {} c5DB {} "u1" c5Req).2.1
          (create_work_order {} c5DB {} "u1" c5Req).2.2 "u1" c5Req).2.1.property_units =
        (create_work_order {} c5DB {} "u1" c5Req).2.1.property_units ∧
      unitLabelCount (create_work_order {} c5DB {} "u1" c5Req).2.1 c5Req.property_id
          (pyStrip "Apt 3B") =
        (if unitLabelCount c5DB c5Req.property_id (pyStrip "Apt 3B") = 0 then 1
         else unitLabelCount c5DB c5Req.property_id (pyStrip "Apt 3B")) :=
  C5_unit_label_idempotent {} c5DB {} "u1" c5Req
    { user_id := "u1", company_id := some "c1" } "c1"
    { id := "p1", company_id := "c1", name := "Main St" } "Apt 3B"
    (by decide) rfl (by decide) (by decide) rfl rfl (by decide) (by decide) rfl
    (fun n => rfl) (fun n => rfl)

/-- C1: tenant isolation.  For an acting user resolved to company A and any
property / unit / technician / work order belonging to a different company B
(with no same-id row in A), every update and delete returns 404 Not Found
(never 403) and leaves the database unchanged; the unit listing of B's
property is 404; and the property / technician / work-order listings return
only rows of company A, never B's row. -/
theorem C1_tenant_isolation (db : DB) (uid : String) (au : AppUserRow)
    (cidA cidB : String)
    (p : PropertyRow) (u : UnitRow) (t : TechnicianRow) (w : WorkOrderRow)
    (hau : _get_app_user db uid = some au) (hcid : au.company_id = some cidA)
    (hne : cidA ≠ "") (hBA : cidB ≠ cidA)
    (hpuniq : ∀ q ∈ db.properties, q.id = p.id → q.company_id = cidB)
    (huuniq : ∀ q ∈ db.property_units, q.id = u.id → q.company_id = cidB)
    (htuniq : ∀ q ∈ db.technicians, q.id = t.id → q.company_id = cidB)
    (hwuniq : ∀ q ∈ db.work_orders, q.id = w.id → q.company_id = cidB) :
    (∀ pd, update_property db uid p.id pd = (.error ⟨404, "Property not found"⟩, db)) ∧
    (delete_property db uid p.id = (.error ⟨404, "Property not found"⟩, db)) ∧
    (get_units db uid p.id = .error ⟨404, "Property not found"⟩) ∧
    (∀ ud, update_unit db uid u.id ud = (.error ⟨404, "Unit not found"⟩, db)) ∧
    (delete_unit db uid u.id = (.error ⟨404, "Unit not found"⟩, db)) ∧
    (∀ td, update_technician db uid t.id td = (.error ⟨404, "Technician not found"⟩, db)) ∧
    (delete_technician db uid t.id = (.error ⟨404, "Technician not found"⟩, db)) ∧
    (∀ wud, update_work_order db uid w.id wud = (.error ⟨404, "Work order not found"⟩, db)) ∧
    (∃ l, get_properties db uid = .ok l ∧ ∀ q ∈ l, q.company_id = cidA ∧ q.id ≠ p.id) ∧
    (∃ l, get_technicians db uid = .ok l ∧ ∀ q ∈ l, q.company_id = cidA ∧ q.id ≠ t.id) ∧
    (∀ sf pf lim off, ∃ resp, get_work_orders db uid sf pf lim off = .ok resp ∧
        ∀ q ∈ resp.work_orders, q.company_id = cidA ∧ q.id ≠ w.id) := by
  have hreq : require_company db uid = .ok cidA := require_company_ok db uid au cidA hau hcid hne
  have hchkP : db.properties.filter (fun r => r.id = p.id ∧ r.company_id = cidA) = [] := by
    rw [List.filter_eq_nil_iff]
    intro q hq
    simp only [decide_eq_true_eq, not_and]
    intro hid hcf
    exact hBA ((hpuniq q hq hid) ▸ hcf)
  have hchkU : db.property_units.filter (fun r => r.id = u.id ∧ r.company_id = cidA) = [] := by
    rw [List.filter_eq_nil_iff]
    intro q hq
    simp only [decide_eq_true_eq, not_and]
    intro hid hcf
    exact hBA ((huuniq q hq hid) ▸ hcf)
  have hchkT : db.technicians.filter (fun r => r.id = t.id ∧ r.company_id = cidA) = [] := by
    rw [List.filter_eq_nil_iff]
    intro q hq
    simp only [decide_eq_true_eq, not_and]
    intro hid hcf
    exact hBA ((htuniq q hq hid) ▸ hcf)
  have hchkW : db.work_orders.filter (fun r => r.id = w.id ∧ r.company_id = cidA) = [] := by
    rw [List.filter_eq_nil_iff]
    intro q hq
    simp only [decide_eq_true_eq, not_and]
    intro hid hcf
    exact hBA ((hwuniq q hq hid) ▸ hcf)
  refine ⟨?_, ?_, ?_, ?_, ?_, ?_, ?_, ?_, ?_, ?_, ?_⟩
  · intro pd
    simp only [update_property, hreq]
    rw [hchkP]
    simp
  · simp only [delete_property, hreq]
    rw [hchkP]
    simp
  · simp only [get_units, hreq]
    rw [hchkP]
    simp
  · intro ud
    simp only [update_unit, hreq]
    rw [hchkU]
    simp
  · simp only [delete_unit, hreq]
    rw [hchkU]
    simp
  · intro td
    simp only [update_technician, hreq]
    rw [hchkT]
    simp
  · simp only [delete_technician, hreq]
    rw [hchkT]
    simp
  · intro wud
    simp only [update_work_order, hreq]
    rw [hchkW]
    simp
  · refine ⟨sortBy (fun a b => a.name ≤ b.name)
        (db.properties.filter (fun r => r.company_id = cidA)), ?_, ?_⟩
    · rw [get_properties, hreq]
    · intro q hq
      rw [mem_sortBy] at hq
      have hq2 := List.mem_filter.mp hq
      have hA : q.company_id = cidA := by simpa using hq2.2
      refine ⟨hA, ?_⟩
      intro hid
      exact hBA ((hpuniq q hq2.1 hid) ▸ hA)
  · rcases hgt : get_technicians db uid with e | l
    · simp only [get_technicians, hreq] at hgt
      exact Except.noConfusion hgt
    · refine ⟨l, rfl, ?_⟩
      simp only [get_technicians, hreq, Except.ok.injEq] at hgt
      subst hgt
      intro q hq
      rw [List.mem_map] at hq
      obtain ⟨r, hr, rfl⟩ := hq
      rw [mem_sortBy] at hr
      have hr2 := List.mem_filter.mp hr
      have hA : r.company_id = cidA := by simpa using hr2.2
      refine ⟨hA, ?_⟩
      intro hid
      exact hBA ((htuniq r hr2.1 hid) ▸ hA)
  · intro sf pf lim off
    rcases hgw : get_work_orders db uid sf pf lim off with e | resp
    · simp only [get_work_orders, hreq] at hgw
      exact Except.noConfusion hgw
    · refine ⟨resp, rfl, ?_⟩
      simp only [get_work_orders, hreq, Except.ok.injEq] at hgw
      subst hgw
      intro q hq
      rw [List.mem_map] at hq
      obtain ⟨r, hr, rfl⟩ := hq
      have hr2 : r ∈ db.work_orders.filter (fun x =>
          x.company_id = cidA &&
            (if strTruthy sf = true then x.wo_status = sf.getD "" else true) &&
            (if strTruthy pf = true then x.priority = pf.getD "" else true)) := by
        rw [← mem_sortBy (fun a b => b.created_at ≤ a.created_at)]
        exact List.mem_of_mem_drop (List.mem_of_mem_take hr)
      have hr3 := List.mem_filter.mp hr2
      have hA : r.company_id = cidA := by
        have hb := hr3.2
        have hb1 := (Bool.and_eq_true _ _ |>.mp hb).1
        have hb2 := (Bool.and_eq_true _ _ |>.mp hb1).1
        simpa using hb2
      refine ⟨hA, ?_⟩
      intro hid
      exact hBA ((hwuniq r hr3.1 hid) ▸ hA)

/-- C1 fixture: a user of company cA; all resources belong to company cB. -/
def c1DB : DB :=
  { app_users := [{ user_id := "uA", company_id := some "cA" }],
    companies := [{ id := "cA", name := "Alpha" }, { id := "cB", name := "Beta" }],
    properties := [{ id := "pB", company_id := "cB", name := "B property" }],
    property_units := [{ id := "unB", company_id := "cB", property_id := "pB", label := "1A" }],
    technicians := [{ id := "tB", company_id := "cB", first_name := "Bob", last_name := "B" }],
    work_orders := [{ id := "wB", company_id := "cB", property_id := "pB",
                      issue := "leak", priority := "routine" }] }

/-- C1 witness: cross-tenant mutations 404 without change; the property
listing of company cA never contains company cB's row. -/
theorem C1_tenant_isolation_witness :
    update_property c1DB "uA" "pB" { name := some "X" } =
      (.error ⟨404, "Property not found"⟩, c1DB) ∧
    delete_technician c1DB "uA" "tB" = (.error ⟨404, "Technician not found"⟩, c1DB) ∧
    update_work_order c1DB "uA" "wB" { wo_status := some "closed" } =
      (.error ⟨404, "Work order not found"⟩, c1DB) ∧
    (∃ l, get_properties c1DB "uA" = .ok l ∧ ∀ q ∈ l, q.company_id = "cA" ∧ q.id ≠ "pB") := by
  have h := C1_tenant_isolation c1DB "uA" { user_id := "uA", company_id := some "cA" }
    "cA" "cB"
    { id := "pB", company_id := "cB", name := "B property" }
    { id := "unB", company_id := "cB", property_id := "pB", label := "1A" }
    { id := "tB", company_id := "cB", first_name := "Bob", last_name := "B" }
    { id := "wB", company_id := "cB", property_id := "pB", issue := "leak", priority := "routine" }
    (by decide) rfl (by decide) (by decide)
    (by decide) (by decide) (by decide) (by decide)
  exact ⟨h.1 _, h.2.2.2.2.2.2.1, h.2.2.2.2.2.2.2.1 _, h.2.2.2.2.2.2.2.2.1⟩
